import Mathlib

set_option maxRecDepth 8000

/-
Verification development for the data-plane mediator in
src/agent/qrexec-agent-data.c.  The C file is shallowly embedded below:
pure computations become Lean functions, the select loop of
process_child_io becomes a step function driven by an explicit list of
per-iteration environment records (signal flags observed, vchan state
sampled for the iteration, readiness results, outcomes of the external
pumps), and every vchan send performed by the code is logged in a trace.
External collaborators that live outside src/ (libvchan, libqrexec
helpers handle_remote_data and handle_input, handle_vchan_error) are
modelled from the spec, as marked on each definition.
-/

/-- Modelled from the spec: message-type tags come from qrexec.h, which is
not under src/.  Only their distinctness matters to this development; the
numeric values follow the conventional protocol constants. -/
def MSG_DATA_STDIN : Nat := 0x190

/-- Modelled from the spec: see MSG_DATA_STDIN. -/
def MSG_DATA_STDOUT : Nat := 0x191

/-- Modelled from the spec: see MSG_DATA_STDIN. -/
def MSG_DATA_STDERR : Nat := 0x192

/-- Modelled from the spec: see MSG_DATA_STDIN. -/
def MSG_DATA_EXIT_CODE : Nat := 0x193

/-- Modelled from the spec: see MSG_DATA_STDIN. -/
def MSG_EXEC_CMDLINE : Nat := 0x200

/-- Modelled from the spec: see MSG_DATA_STDIN. -/
def MSG_JUST_EXEC : Nat := 0x201

/-- Modelled from the spec: see MSG_DATA_STDIN. -/
def MSG_SERVICE_CONNECT : Nat := 0x202

/-- Modelled from the spec: see MSG_DATA_STDIN. -/
def MSG_HELLO : Nat := 0x300

/-- Modelled from the spec: QREXEC_DATA_MIN_VERSION is QREXEC_PROTOCOL_V2
in qrexec.h (not under src/); the spec fixes the minimum accepted protocol
version at 2. -/
def QREXEC_DATA_MIN_VERSION : Nat := 2

/-- Size of struct msg_header: two unsigned 32-bit fields (type, length). -/
def msgHeaderSize : Nat := 8

/-- Size of struct peer_info: a single unsigned 32-bit version field. -/
def peerInfoSize : Nat := 4

/-- One physical libvchan_send performed by the mediator: a message header,
a raw payload of a given byte count, a 32-bit integer payload (exit status),
or a 32-bit word payload (protocol version). -/
inductive VSend where
  | hdr (ty : Nat) (len : Nat)
  | bytes (n : Nat)
  | int32 (v : Int)
  | word (v : Nat)
deriving DecidableEq, Repr

/-- Recognizer for the header of an EXIT_CODE message in a send trace. -/
def isExitHdr : VSend → Bool
  | VSend.hdr t _ => t == MSG_DATA_EXIT_CODE
  | _ => false

/-- Recognizer for child-data traffic in a send trace: a header of one of
the three stdio data types, or a raw payload chunk. -/
def isChildData : VSend → Bool
  | VSend.hdr t _ => t == MSG_DATA_STDIN || t == MSG_DATA_STDOUT || t == MSG_DATA_STDERR
  | VSend.bytes _ => true
  | _ => false

/-- Holds when a trace suffix may legally follow an EXIT_CODE header:
either nothing (the status send failed fatally) or exactly the 4-byte
status payload. -/
def tailAfterExit : List VSend → Bool
  | [] => true
  | [VSend.int32 _] => true
  | _ => false

/-- Holds when every EXIT_CODE header in the trace is followed by nothing
but its own status payload; in particular at most one EXIT_CODE message
occurs and it terminates the trace. -/
def exitLast : List VSend → Bool
  | [] => true
  | v :: l => if isExitHdr v then tailAfterExit l else exitLast l

/-- Results of the two libvchan_send calls made by send_exit_code, as the
byte counts (or -1) the vchan library reports. -/
structure SendRes where
  hdrRes : Int
  statusRes : Int
deriving DecidableEq, Repr

/-- Embedding of send_exit_code (src/agent/qrexec-agent-data.c:160).  The
function sends the header and then the 4-byte status as two vchan sends;
after each send it calls handle_vchan_error exactly when the send returned
a negative value.  Returns the physical sends that went out and whether the
session was fatally aborted. -/
def send_exit_code (r : SendRes) (status : Int) : List VSend × Bool :=
  if r.hdrRes < 0 then ([], true)
  else if r.statusRes < 0 then ([VSend.hdr MSG_DATA_EXIT_CODE 4], true)
  else ([VSend.hdr MSG_DATA_EXIT_CODE 4, VSend.int32 status], false)

/-- Embedding of handle_just_exec (src/agent/qrexec-agent-data.c:136).
cmdlineHasColon records whether strchr finds the colon separator, forkOk
whether fork() succeeds.  Returns (child was forked, return value).  In the
child branch the process opens the null device and execs; that happens in
the child process and is summarized by the forked flag. -/
def handle_just_exec (cmdlineHasColon forkOk : Bool) : Bool × Int :=
  if cmdlineHasColon then
    if forkOk then (true, 0) else (false, -1)
  else (false, -1)

/-- On-wire message header: type tag and payload length, both u32. -/
structure MsgHeader where
  type : Nat
  len : Nat
deriving DecidableEq, Repr

/-- Transport environment for one run of handle_handshake: results of the
two sends and two receives (byte counts or -1), plus the received header
and peer version. -/
structure HsEnv where
  sendHdrRes : Int
  sendInfoRes : Int
  recvHdrRes : Int
  recvHdr : MsgHeader
  recvInfoRes : Int
  recvInfo : Nat
deriving DecidableEq, Repr

/-- Embedding of handle_handshake (src/agent/qrexec-agent-data.c:88),
parameterized by the local QREXEC_PROTOCOL_VERSION.  Sends HELLO, receives
the peer HELLO, rejects a first message that is not a well-formed HELLO,
computes the smaller of the two versions and rejects it when below
QREXEC_DATA_MIN_VERSION; otherwise returns the negotiated version. -/
def handle_handshake (localVer : Nat) (e : HsEnv) : Int :=
  if e.sendHdrRes ≠ (msgHeaderSize : Int) then -1
  else if e.sendInfoRes ≠ (peerInfoSize : Int) then -1
  else if e.recvHdrRes ≠ (msgHeaderSize : Int) then -1
  else if e.recvHdr.type ≠ MSG_HELLO ∨ e.recvHdr.len ≠ peerInfoSize then -1
  else if e.recvInfoRes ≠ (peerInfoSize : Int) then -1
  else
    let actual : Nat := if e.recvInfo < localVer then e.recvInfo else localVer
    if actual < QREXEC_DATA_MIN_VERSION then -1 else (actual : Int)

/-- Sends that physically leave on the vchan during handle_handshake: the
HELLO header and version payload, each logged when its send moved bytes,
and the sequence stopping at the first failed send. -/
def handshakeSends (localVer : Nat) (e : HsEnv) : List VSend :=
  (if 0 ≤ e.sendHdrRes then [VSend.hdr MSG_HELLO peerInfoSize] else []) ++
  (if e.sendHdrRes = (msgHeaderSize : Int) then
    (if 0 ≤ e.sendInfoRes then [VSend.word localVer] else [])
  else [])

/-- Lifecycle of one of the three fd slots (stdin_fd, stdout_fd, stderr_fd)
of process_child_io.  The generation counter distinguishes the fresh
descriptor that the single-socket dup path can install in the stdout slot
after the original one was closed.  shut models the -1 sentinel the code
stores after shutdown/close. -/
inductive FdSlot where
  | live (gen : Nat)
  | shut (gen : Nat)
deriving DecidableEq, Repr

/-- Whether the slot currently holds a usable descriptor (fd != -1). -/
def FdSlot.isLive : FdSlot → Bool
  | FdSlot.live _ => true
  | FdSlot.shut _ => false

/-- Generation counter of the slot. -/
def FdSlot.gen : FdSlot → Nat
  | FdSlot.live g => g
  | FdSlot.shut g => g

/-- Names of the three fd slots. -/
inductive SlotId where
  | stdinS
  | stdoutS
  | stderrS
deriving DecidableEq, Repr

/-- A close event: which slot was shut down, and the generation of the
descriptor that was closed. -/
abbrev CloseEv := SlotId × Nat

/-- Closing a slot toward the peer (shutdown with close fallback, per the
shutdown rule in the code).  Closing an already-shut slot corresponds to
close(-1)/shutdown(-1) in the code, which fails with EBADF and closes no
descriptor, so it produces no event. -/
def closeEvents (id : SlotId) : FdSlot → FdSlot × List CloseEv
  | FdSlot.live g => (FdSlot.shut g, [(id, g)])
  | FdSlot.shut g => (FdSlot.shut g, [])

/-- Loop-local state of process_child_io (src/agent/qrexec-agent-data.c:172):
locals child_process_status and remote_process_status (-1 sentinel), the
three fd slots, the stdin staging buffer length, the tri-state
stdio_socket_requested flag, plus the per-session child_process_pid and
stdout_msg_type globals. -/
structure IoState where
  childPid : Nat
  childStatus : Int
  remoteStatus : Int
  stdin : FdSlot
  stdout : FdSlot
  stderr : FdSlot
  bufLen : Nat
  stdioFlag : Nat
  stdoutMsgType : Nat
deriving DecidableEq, Repr

/-- Lower bound for the generation of the next close event a slot can
produce: its current generation if live, one past it if already shut. -/
def floorOf : FdSlot → Nat
  | FdSlot.live g => g
  | FdSlot.shut g => g + 1

/-- floorOf of the named slot of a state. -/
def floorId (st : IoState) : SlotId → Nat
  | SlotId.stdinS => floorOf st.stdin
  | SlotId.stdoutS => floorOf st.stdout
  | SlotId.stderrS => floorOf st.stderr

/-- Close the stdin slot of the state, logging the event. -/
def closeStdin (st : IoState) : IoState × List CloseEv :=
  let c := closeEvents SlotId.stdinS st.stdin
  ({ st with stdin := c.1 }, c.2)

/-- Close the stdout slot of the state, logging the event. -/
def closeStdout (st : IoState) : IoState × List CloseEv :=
  let c := closeEvents SlotId.stdoutS st.stdout
  ({ st with stdout := c.1 }, c.2)

/-- Close the stderr slot of the state, logging the event. -/
def closeStderr (st : IoState) : IoState × List CloseEv :=
  let c := closeEvents SlotId.stderrS st.stderr
  ({ st with stderr := c.1 }, c.2)

/-- Embedding of the post-loop cleanup of process_child_io
(src/agent/qrexec-agent-data.c:365): close whatever of stdout_fd, stdin_fd,
stderr_fd is still open, in that order. -/
def teardown (st : IoState) : IoState × List CloseEv :=
  let a := closeStdout st
  let b := closeStdin a.1
  let c := closeStderr b.1
  (c.1, a.2 ++ b.2 ++ c.2)

/-- Return value computed at the end of process_child_io
(src/agent/qrexec-agent-data.c:393): remote status in service-connect mode
(child_process_pid == 0), local child status otherwise. -/
def loopReturn (st : IoState) : Int :=
  if st.childPid = 0 then st.remoteStatus else st.childStatus

/-- Wait status delivered by waitpid for the reaped child: terminated by
signal n, or exited with the given (already WEXITSTATUS-decoded) code. -/
inductive WaitStatus where
  | signaled (n : Nat)
  | exited (code : Nat)
deriving DecidableEq, Repr

/-- Translation of a wait status performed in the reap block of
process_child_io (src/agent/qrexec-agent-data.c:203): 128 + signal number
when signalled, the raw exit status otherwise. -/
def exitStatusOfWait : WaitStatus → Int
  | WaitStatus.signaled n => 128 + (n : Int)
  | WaitStatus.exited c => (c : Int)

/-- Modelled from the spec: result of one call to handle_remote_data
(libqrexec, not under src/).  ok carries the stdin staging-buffer length
after the call (the pump both drains the buffer into the child stdin fd and
appends newly received STDIN payload); reof reports a zero-length STDIN
message, after which the stdin fd has been closed by the pump; rexited
reports an inbound EXIT_CODE with the remote status; rerror is a fatal
protocol or vchan failure. -/
inductive RemoteOutcome where
  | ok (newBufLen : Nat)
  | rerror
  | reof
  | rexited (status : Int)
deriving DecidableEq, Repr

/-- Modelled from the spec: result of the non-blocking read handle_input
(libqrexec, not under src/) performs on a child output fd.  again is
EAGAIN, rdata n a successful read of n bytes, ieof a zero-byte read (the
pump closes the fd and, unless suppressed, emits a zero-length frame),
ierror any other failure, which is fatal. -/
inductive InputOutcome where
  | again
  | rdata (n : Nat)
  | ieof
  | ierror
deriving DecidableEq, Repr

/-- Outcome of the pselect call: interrupted, failed with a non-EINTR
error, or returned with the given readiness bits (vchan event fd fired,
stdout_fd readable, stderr_fd readable). -/
inductive SelectOutcome where
  | eintr
  | sfail
  | ready (vchanFired stdoutReady stderrReady : Bool)
deriving DecidableEq, Repr

/-- Environment of one iteration of the process_child_io loop: the signal
flags observed, the waitpid result, the vchan state sampled for this
iteration (data_ready, is_open, buffer_space), the pselect outcome, the
libvchan_wait result, the outcomes of the two external pumps, and the
libvchan_send results that send_exit_code would see this iteration. -/
structure IterEnv where
  childExited : Bool
  reap : Option WaitStatus
  dataReady : Nat
  vchanIsOpen : Bool
  bufferSpace : Nat
  sigUsr1 : Bool
  sel : SelectOutcome
  vchanWaitOk : Bool
  remote : RemoteOutcome
  stdoutInp : InputOutcome
  stderrInp : InputOutcome
  exitSend : SendRes
deriving DecidableEq, Repr

/-- Embedding of the reap block at the top of the loop
(src/agent/qrexec-agent-data.c:199): when the SIGCHLD flag is set and a
non-blocking waitpid reaps the child, record the translated exit status and
close the stdin fd toward the child. -/
def reapState (st : IoState) (e : IterEnv) : IoState × List CloseEv :=
  if e.childExited then
    match e.reap with
    | some w =>
      if 0 < st.childPid then
        closeStdin { st with childStatus := exitStatusOfWait w }
      else (st, [])
    | none => (st, [])
  else (st, [])

/-- Embedding of the all-done exit test (src/agent/qrexec-agent-data.c:222):
the local child (if any) has an exit code, the remote side (required only
when there is no local child) has reported exit, and all three fds are
closed. -/
def allDoneCond (st : IoState) : Bool :=
  (st.childPid == 0 || decide (-1 < st.childStatus)) &&
  (st.childPid != 0 || decide (-1 < st.remoteStatus)) &&
  !st.stdin.isLive && !st.stdout.isLive && !st.stderr.isLive

/-- Embedding of the disconnected-vchan exit test
(src/agent/qrexec-agent-data.c:232): no pending inbound data, vchan closed,
stdin staging buffer empty. -/
def vchanGoneCond (st : IoState) (e : IterEnv) : Bool :=
  e.dataReady == 0 && !e.vchanIsOpen && st.bufLen == 0

/-- SIGUSR1 handler effect (src/agent/qrexec-agent-data.c:71): raise the
stdio_socket_requested flag to 1; the handler then ignores further SIGUSR1,
so only the first delivery is observed. -/
def raiseUsr1 (st : IoState) (e : IterEnv) : IoState :=
  if e.sigUsr1 && st.stdioFlag == 0 then { st with stdioFlag := 1 } else st

/-- Embedding of the single-socket dup request block
(src/agent/qrexec-agent-data.c:238): when the flag is 1, dup stdin onto the
stdout slot (a fresh descriptor when stdout was closed), then set the flag
to 2.  dup3/fcntl on a dead stdin descriptor fails and the code aborts,
modelled as none. -/
def dupStep (st : IoState) : Option IoState :=
  if st.stdioFlag == 1 then
    if st.stdout.isLive then
      if st.stdin.isLive then some { st with stdioFlag := 2 } else none
    else
      if st.stdin.isLive then
        some { st with stdout := FdSlot.live (st.stdout.gen + 1), stdioFlag := 2 }
      else none
  else some st

/-- Embedding of the read-set gating for stdout_fd
(src/agent/qrexec-agent-data.c:263): the fd is watched for read only when
it is open and the vchan outbound buffer space strictly exceeds the header
size. -/
def stdoutWatched (st : IoState) (e : IterEnv) : Bool :=
  decide (msgHeaderSize < e.bufferSpace) && st.stdout.isLive

/-- Embedding of the read-set gating for stderr_fd
(src/agent/qrexec-agent-data.c:269), same rule as for stdout_fd. -/
def stderrWatched (st : IoState) (e : IterEnv) : Bool :=
  decide (msgHeaderSize < e.bufferSpace) && st.stderr.isLive

/-- Observable effect of one handle_input call: the frames sent, whether
the source fd was closed (end of stream), and whether the session died
fatally. -/
structure InputStep where
  sends : List VSend
  closeFd : Bool
  fatal : Bool
deriving DecidableEq, Repr

/-- Modelled from the spec: handle_input (libqrexec, not under src/) reads
up to ring space minus header size bytes from the fd; on data it frames and
sends one message, on a zero-byte read it closes the fd and sends a
zero-length frame of the same type unless the single-socket mode suppresses
the EOF frame, on EAGAIN it does nothing, and on any other error the caller
treats the session as fatally broken. -/
def handle_input_model (ty : Nat) (space : Nat) (sendEofFrame : Bool)
    (o : InputOutcome) : InputStep :=
  match o with
  | InputOutcome.again => ⟨[], false, false⟩
  | InputOutcome.rdata n =>
    let m := min n (space - msgHeaderSize)
    if m == 0 then ⟨[], false, false⟩
    else ⟨[VSend.hdr ty m, VSend.bytes m], false, false⟩
  | InputOutcome.ieof =>
    ⟨if sendEofFrame then [VSend.hdr ty 0] else [], true, false⟩
  | InputOutcome.ierror => ⟨[], false, true⟩

/-- How one iteration of the loop ended: normal all-done termination,
disconnected-vchan termination, pselect failure, the service-connect early
return on an inbound EXIT_CODE, or a fatal abort via handle_vchan_error or
abort(). -/
inductive ExitKind where
  | allDone
  | vchanGone
  | selectFail
  | remoteEarly
  | fatal
deriving DecidableEq, Repr

/-- Result of one loop iteration: continue with the accumulated sends and
close events, or leave the loop with an exit kind and return value. -/
inductive StepOut where
  | cont (sends : List VSend) (closes : List CloseEv) (st : IoState)
  | halt (sends : List VSend) (closes : List CloseEv) (k : ExitKind) (ret : Int) (st : IoState)
deriving DecidableEq, Repr

/-- Dispatch of a readable stderr_fd (src/agent/qrexec-agent-data.c:351):
invoke handle_input with type MSG_DATA_STDERR; a fatal pump error aborts,
end of stream closes the slot. -/
def stderrDispatch (st : IoState) (cl : List CloseEv) (acc : List VSend)
    (e : IterEnv) (wErr ready : Bool) : StepOut :=
  if st.stderr.isLive && wErr && ready then
    let r := handle_input_model MSG_DATA_STDERR e.bufferSpace
      (decide (st.stdioFlag < 2)) e.stderrInp
    if r.fatal then StepOut.halt (acc ++ r.sends) cl ExitKind.fatal 0 st
    else if r.closeFd then
      let c := closeStderr st
      StepOut.cont (acc ++ r.sends) (cl ++ c.2) c.1
    else StepOut.cont (acc ++ r.sends) cl st
  else StepOut.cont acc cl st

/-- Dispatch of a readable stdout_fd (src/agent/qrexec-agent-data.c:338):
invoke handle_input with the session stdout message type; a fatal pump
error aborts, end of stream closes the slot; then fall through to the
stderr dispatch. -/
def stdoutDispatch (st : IoState) (cl : List CloseEv) (e : IterEnv)
    (wOut wErr soReady seReady : Bool) : StepOut :=
  if st.stdout.isLive && wOut && soReady then
    let r := handle_input_model st.stdoutMsgType e.bufferSpace
      (decide (st.stdioFlag < 2)) e.stdoutInp
    if r.fatal then StepOut.halt r.sends cl ExitKind.fatal 0 st
    else if r.closeFd then
      let c := closeStdout st
      stderrDispatch c.1 (cl ++ c.2) r.sends e wErr seReady
    else stderrDispatch st cl r.sends e wErr seReady
  else stderrDispatch st cl [] e wErr seReady

/-- One iteration of the process_child_io loop
(src/agent/qrexec-agent-data.c:198), in source order: reap a pending child,
test the all-done condition (sending the exit code when a local one is
recorded) and the disconnected-vchan condition, apply a pending
single-socket request, build the gated readiness sets, run pselect, clear
the vchan event, run handle_remote_data (fatal on error; on EOF the stdin
slot is closed; on an inbound EXIT_CODE record the remote status, close
stdout and stderr, and return immediately when there is no local child),
then dispatch readable stdout and stderr. -/
def stepIter (st0 : IoState) (e : IterEnv) : StepOut :=
  let rp := reapState st0 e
  let st1 := rp.1
  let cl1 := rp.2
  if allDoneCond st1 then
    if -1 < st1.childStatus then
      let sres := send_exit_code e.exitSend st1.childStatus
      if sres.2 then StepOut.halt sres.1 cl1 ExitKind.fatal 0 st1
      else
        let td := teardown st1
        StepOut.halt sres.1 (cl1 ++ td.2) ExitKind.allDone (loopReturn td.1) td.1
    else
      let td := teardown st1
      StepOut.halt [] (cl1 ++ td.2) ExitKind.allDone (loopReturn td.1) td.1
  else if vchanGoneCond st1 e then
    let td := teardown st1
    StepOut.halt [] (cl1 ++ td.2) ExitKind.vchanGone (loopReturn td.1) td.1
  else
    let st2 := raiseUsr1 st1 e
    match dupStep st2 with
    | none => StepOut.halt [] cl1 ExitKind.fatal 0 st2
    | some st3 =>
      let wOut := stdoutWatched st3 e
      let wErr := stderrWatched st3 e
      match e.sel with
      | SelectOutcome.eintr => StepOut.cont [] cl1 st3
      | SelectOutcome.sfail =>
        let td := teardown st3
        StepOut.halt [] (cl1 ++ td.2) ExitKind.selectFail (loopReturn td.1) td.1
      | SelectOutcome.ready vFired soReady seReady =>
        if vFired && !e.vchanWaitOk then StepOut.halt [] cl1 ExitKind.fatal 0 st3
        else
          match e.remote with
          | RemoteOutcome.rerror => StepOut.halt [] cl1 ExitKind.fatal 0 st3
          | RemoteOutcome.reof =>
            let c := closeStdin st3
            stdoutDispatch c.1 (cl1 ++ c.2) e wOut wErr soReady seReady
          | RemoteOutcome.rexited s =>
            let a := closeStdout { st3 with remoteStatus := s }
            let b := closeStderr a.1
            if b.1.childPid = 0 then
              StepOut.halt [] (cl1 ++ a.2 ++ b.2) ExitKind.remoteEarly b.1.remoteStatus b.1
            else
              stdoutDispatch b.1 (cl1 ++ a.2 ++ b.2) e wOut wErr soReady seReady
          | RemoteOutcome.ok nb =>
            stdoutDispatch { st3 with bufLen := nb } cl1 e wOut wErr soReady seReady

/-- Kind of loop exit of a step result, none when the loop continues. -/
def stepKind : StepOut → Option ExitKind
  | StepOut.cont _ _ _ => none
  | StepOut.halt _ _ k _ _ => some k

/-- Sends performed during a step. -/
def stepSends : StepOut → List VSend
  | StepOut.cont s _ _ => s
  | StepOut.halt s _ _ _ _ => s

/-- Close events performed during a step. -/
def stepCloses : StepOut → List CloseEv
  | StepOut.cont _ c _ => c
  | StepOut.halt _ c _ _ _ => c

/-- State after a step. -/
def stepState : StepOut → IoState
  | StepOut.cont _ _ st => st
  | StepOut.halt _ _ _ _ st => st

/-- Result of running the loop on a list of iteration environments:
finished with an exit kind, return value and final state, or still running
when the environments ran out. -/
inductive RunOut where
  | finished (sends : List VSend) (closes : List CloseEv) (k : ExitKind) (ret : Int) (st : IoState)
  | fuelOut (sends : List VSend) (closes : List CloseEv) (st : IoState)
deriving DecidableEq, Repr

/-- Run the process_child_io loop over a list of per-iteration
environments, concatenating send traces and close events. -/
def runLoop (st : IoState) : List IterEnv → RunOut
  | [] => RunOut.fuelOut [] [] st
  | e :: es =>
    match stepIter st e with
    | StepOut.halt s c k r st2 => RunOut.finished s c k r st2
    | StepOut.cont s c st2 =>
      match runLoop st2 es with
      | RunOut.finished s2 c2 k r st3 => RunOut.finished (s ++ s2) (c ++ c2) k r st3
      | RunOut.fuelOut s2 c2 st3 => RunOut.fuelOut (s ++ s2) (c ++ c2) st3

/-- Sends of a run. -/
def runSends : RunOut → List VSend
  | RunOut.finished s _ _ _ _ => s
  | RunOut.fuelOut s _ _ => s

/-- Close events of a run. -/
def runCloses : RunOut → List CloseEv
  | RunOut.finished _ c _ _ _ => c
  | RunOut.fuelOut _ c _ => c

/-- Final state of a run. -/
def runState : RunOut → IoState
  | RunOut.finished _ _ _ _ st => st
  | RunOut.fuelOut _ _ st => st

/-- Entry state of process_child_io (src/agent/qrexec-agent-data.c:179):
child status starts at the -1 sentinel only when a child pid exists (0
otherwise), remote status at -1, stdin and stdout slots open (the code dups
stdout to a fresh descriptor when it equals stdin), stderr open only when a
descriptor was provided, the staging buffer at its initial length, and the
single-socket flag untouched. -/
def process_child_io_init (childPid : Nat) (stderrPresent : Bool)
    (buf0 : Nat) (msgType : Nat) : IoState :=
  { childPid := childPid
    childStatus := if 0 < childPid then -1 else 0
    remoteStatus := -1
    stdin := FdSlot.live 0
    stdout := FdSlot.live 0
    stderr := if stderrPresent then FdSlot.live 0 else FdSlot.shut 0
    bufLen := buf0
    stdioFlag := 0
    stdoutMsgType := msgType }

/-- Embedding of process_child_io (src/agent/qrexec-agent-data.c:172) as a
run of the iteration step function from the entry state. -/
def process_child_io (childPid : Nat) (stderrPresent : Bool) (buf0 : Nat)
    (msgType : Nat) (envs : List IterEnv) : RunOut :=
  runLoop (process_child_io_init childPid stderrPresent buf0 msgType) envs

/-- Environment of one handle_new_process_common session: handshake
transport, the just-exec oracle bits, the spawn outcome and child pid for
exec-cmdline, the prefilled stdin buffer length the spawn helper returns,
whether a stderr descriptor exists, the libvchan_send results for the
just-exec exit-code emission, and the loop iteration environments. -/
structure SessionEnv where
  hs : HsEnv
  cmdlineHasColon : Bool
  forkOk : Bool
  justExecSend : SendRes
  spawnOk : Bool
  childPid : Nat
  buf0 : Nat
  stderrPresent : Bool
  envs : List IterEnv
deriving DecidableEq, Repr

/-- Observable outcome of handle_new_process_common: the full send trace,
the returned exit code (none when the process aborted fatally or the loop
was still running), the value handle_handshake produced, whether a child
process was created, and how the I/O loop ended. -/
structure SessionOut where
  sends : List VSend
  ret : Option Int
  hsResult : Int
  spawned : Bool
  loopKind : Option ExitKind
deriving DecidableEq, Repr

/-- Embedding of handle_new_process_common
(src/agent/qrexec-agent-data.c:411).  The handshake result is computed and
stored but, exactly as in the source, never tested before the session
proceeds.  MSG_JUST_EXEC forks and immediately emits the handle_just_exec
return value as the exit code, returning 0; MSG_EXEC_CMDLINE spawns the
child and runs the I/O loop with stdout frames of type MSG_DATA_STDOUT;
MSG_SERVICE_CONNECT runs the loop over the provided descriptors with
child_process_pid = 0 and stdout frames of type MSG_DATA_STDIN. -/
def handle_new_process_common (ty : Nat) (localVer : Nat) (se : SessionEnv) : SessionOut :=
  let hsRes := handle_handshake localVer se.hs
  let hsS := handshakeSends localVer se.hs
  if ty = MSG_JUST_EXEC then
    let je := handle_just_exec se.cmdlineHasColon se.forkOk
    let sc := send_exit_code se.justExecSend je.2
    { sends := hsS ++ sc.1
      ret := if sc.2 then none else some 0
      hsResult := hsRes
      spawned := je.1
      loopKind := none }
  else if ty = MSG_EXEC_CMDLINE then
    match process_child_io se.childPid se.stderrPresent se.buf0 MSG_DATA_STDOUT se.envs with
    | RunOut.finished s _ k r _ =>
      { sends := hsS ++ s
        ret := if k = ExitKind.fatal then none else some r
        hsResult := hsRes
        spawned := se.spawnOk
        loopKind := some k }
    | RunOut.fuelOut s _ _ =>
      { sends := hsS ++ s, ret := none, hsResult := hsRes
        spawned := se.spawnOk, loopKind := none }
  else
    match process_child_io 0 se.stderrPresent 0 MSG_DATA_STDIN se.envs with
    | RunOut.finished s _ k r _ =>
      { sends := hsS ++ s
        ret := if k = ExitKind.fatal then none else some r
        hsResult := hsRes
        spawned := false
        loopKind := some k }
    | RunOut.fuelOut s _ _ =>
      { sends := hsS ++ s, ret := none, hsResult := hsRes
        spawned := false, loopKind := none }

/-- Invariant on the loop state: the stdout message type is one of the two
values the dispatcher installs (MSG_DATA_STDOUT for exec-cmdline,
MSG_DATA_STDIN for service-connect). -/
def msgTypeOK (st : IoState) : Prop :=
  st.stdoutMsgType = MSG_DATA_STDOUT ∨ st.stdoutMsgType = MSG_DATA_STDIN

/-- Exit kind of a run, none when the environment list was exhausted. -/
def runKind : RunOut → Option ExitKind
  | RunOut.finished _ _ k _ _ => some k
  | RunOut.fuelOut _ _ _ => none

/-- Return value of a finished run. -/
def runRet : RunOut → Option Int
  | RunOut.finished _ _ _ r _ => some r
  | RunOut.fuelOut _ _ _ => none

/-- Well-formedness of close-event accounting between two states: the
events are pairwise distinct, each closes a generation at or above the
lower bound of the starting state and strictly below the bound of the
ending state, and the bounds never decrease.  No (slot, generation) pair
can then be closed twice across composed steps. -/
def StepGood (a b : IoState) (cl : List CloseEv) : Prop :=
  cl.Nodup ∧ (∀ p ∈ cl, floorId a p.1 ≤ p.2 ∧ p.2 < floorId b p.1) ∧
  ∀ id, floorId a id ≤ floorId b id

/-- Transport environment in which both handshake sends and receives move
the full structure sizes and the peer HELLO is well-formed, carrying the
given peer version. -/
def hsTransportOk (peer : Nat) : HsEnv :=
  { sendHdrRes := 8, sendInfoRes := 4, recvHdrRes := 8,
    recvHdr := { type := MSG_HELLO, len := 4 }, recvInfoRes := 4, recvInfo := peer }

/-- Concrete iteration: the child exits with status 0 and is reaped, and
the vchan is simultaneously found closed with nothing pending and an empty
staging buffer. -/
def envChildReapedVchanClosed : IterEnv :=
  { childExited := true, reap := some (WaitStatus.exited 0), dataReady := 0,
    vchanIsOpen := false, bufferSpace := 100, sigUsr1 := false,
    sel := SelectOutcome.ready false false false, vchanWaitOk := true,
    remote := RemoteOutcome.ok 0, stdoutInp := InputOutcome.again,
    stderrInp := InputOutcome.again, exitSend := { hdrRes := 8, statusRes := 4 } }

/-- Concrete iteration: the vchan fires and handle_remote_data consumes an
inbound EXIT_CODE carrying status 7. -/
def envInboundExitSeven : IterEnv :=
  { childExited := false, reap := none, dataReady := 1,
    vchanIsOpen := true, bufferSpace := 100, sigUsr1 := false,
    sel := SelectOutcome.ready true false false, vchanWaitOk := true,
    remote := RemoteOutcome.rexited 7, stdoutInp := InputOutcome.again,
    stderrInp := InputOutcome.again, exitSend := { hdrRes := 8, statusRes := 4 } }

/-- Concrete iteration: the vchan is closed and idle, the buffer empty, and
nothing else happens. -/
def envVchanClosedIdle : IterEnv :=
  { childExited := false, reap := none, dataReady := 0,
    vchanIsOpen := false, bufferSpace := 100, sigUsr1 := false,
    sel := SelectOutcome.ready false false false, vchanWaitOk := true,
    remote := RemoteOutcome.ok 0, stdoutInp := InputOutcome.again,
    stderrInp := InputOutcome.again, exitSend := { hdrRes := 8, statusRes := 4 } }

/-- Concrete loop state in which the all-done condition holds with a
recorded local exit code 0. -/
def stAllDoneRecorded : IoState :=
  { childPid := 5, childStatus := 0, remoteStatus := -1,
    stdin := FdSlot.shut 0, stdout := FdSlot.shut 0, stderr := FdSlot.shut 0,
    bufLen := 0, stdioFlag := 0, stdoutMsgType := MSG_DATA_STDOUT }

/-- Concrete iteration in which the vchan outbound ring has no free space
at all. -/
def envNoRingSpace : IterEnv :=
  { childExited := false, reap := none, dataReady := 0,
    vchanIsOpen := true, bufferSpace := 0, sigUsr1 := false,
    sel := SelectOutcome.ready false false false, vchanWaitOk := true,
    remote := RemoteOutcome.ok 0, stdoutInp := InputOutcome.again,
    stderrInp := InputOutcome.again, exitSend := { hdrRes := 8, statusRes := 4 } }

/-- Concrete session environment: peer HELLO advertises version 1 (below
the minimum 2), the command line is well-formed and fork succeeds. -/
def sessPeerVersionOne : SessionEnv :=
  { hs := hsTransportOk 1, cmdlineHasColon := true, forkOk := true,
    justExecSend := { hdrRes := 8, statusRes := 4 }, spawnOk := true,
    childPid := 5, buf0 := 0, stderrPresent := true,
    envs := [envChildReapedVchanClosed] }

/-- Concrete session environment: handshake succeeds (peer version 3) but
the command line contains no colon separator. -/
def sessNoColon : SessionEnv :=
  { hs := hsTransportOk 3, cmdlineHasColon := false, forkOk := true,
    justExecSend := { hdrRes := 8, statusRes := 4 }, spawnOk := true,
    childPid := 5, buf0 := 0, stderrPresent := true, envs := [] }


/-- Recognizer for a frame belonging to the data stream of the given
message type: its header or a raw payload chunk. -/
def frameOf (ty : Nat) : VSend → Bool
  | VSend.hdr t _ => t == ty
  | VSend.bytes _ => true
  | _ => false

/-- State after the reap block of a loop iteration. -/
def reapSt (st : IoState) (e : IterEnv) : IoState := (reapState st e).1

/-- Close events of the reap block of a loop iteration. -/
def reapCl (st : IoState) (e : IterEnv) : List CloseEv := (reapState st e).2

/-- State after the reap block and the SIGUSR1 flag update of an
iteration. -/
def postSig (st : IoState) (e : IterEnv) : IoState := raiseUsr1 (reapSt st e) e

/-- Final state of the service-connect run that receives an inbound
EXIT_CODE(7): stdout and stderr closed, stdin still open. -/
def stServiceAfterExit : IoState :=
  { childPid := 0, childStatus := 0, remoteStatus := 7,
    stdin := FdSlot.live 0, stdout := FdSlot.shut 0, stderr := FdSlot.shut 0,
    bufLen := 0, stdioFlag := 0, stdoutMsgType := MSG_DATA_STDIN }

/-- Final state of the exec run whose vchan closes before the child is
reaped: both statuses still at the -1 sentinel, all fds closed by
teardown. -/
def stExecIdleFin : IoState :=
  { childPid := 5, childStatus := -1, remoteStatus := -1,
    stdin := FdSlot.shut 0, stdout := FdSlot.shut 0, stderr := FdSlot.shut 0,
    bufLen := 0, stdioFlag := 0, stdoutMsgType := MSG_DATA_STDOUT }
theorem c2_handshake_negotiation (localVer : Nat) (e : HsEnv)
    (h1 : e.sendHdrRes = (msgHeaderSize : Int))
    (h2 : e.sendInfoRes = (peerInfoSize : Int))
    (h3 : e.recvHdrRes = (msgHeaderSize : Int))
    (h4 : e.recvInfoRes = (peerInfoSize : Int)) :
    (e.recvHdr.type ≠ MSG_HELLO ∨ e.recvHdr.len ≠ peerInfoSize →
      handle_handshake localVer e = -1) ∧
    (e.recvHdr.type = MSG_HELLO → e.recvHdr.len = peerInfoSize →
      (min localVer e.recvInfo < QREXEC_DATA_MIN_VERSION →
        handle_handshake localVer e = -1) ∧
      (QREXEC_DATA_MIN_VERSION ≤ min localVer e.recvInfo →
        handle_handshake localVer e = ((min localVer e.recvInfo : Nat) : Int))) := by
  have e1 : ¬((msgHeaderSize : Int) ≠ (msgHeaderSize : Int)) := by simp
  have e2 : ¬((peerInfoSize : Int) ≠ (peerInfoSize : Int)) := by simp
  constructor
  · intro h
    unfold handle_handshake
    rw [h1, h2, h3, h4, if_neg e1, if_neg e2, if_neg e1, if_pos h]
  · intro ht hl
    have hGood : ¬(e.recvHdr.type ≠ MSG_HELLO ∨ e.recvHdr.len ≠ peerInfoSize) := by
      simp [ht, hl]
    constructor
    · intro hmin
      have hmin2 : min localVer e.recvInfo < 2 := hmin
      unfold handle_handshake
      rw [h1, h2, h3, h4, if_neg e1, if_neg e2, if_neg e1, if_neg hGood, if_neg e2]
      show (if (if e.recvInfo < localVer then e.recvInfo else localVer) < 2
          then (-1 : Int)
          else ((if e.recvInfo < localVer then e.recvInfo else localVer : Nat) : Int)) = -1
      rcases Nat.lt_or_ge e.recvInfo localVer with hc | hc
      · rw [if_pos hc, if_pos (show e.recvInfo < 2 by omega)]
      · have hni : ¬(e.recvInfo < localVer) := by omega
        rw [if_neg hni, if_pos (show localVer < 2 by omega)]
    · intro hmin
      have hmin2 : 2 ≤ min localVer e.recvInfo := hmin
      unfold handle_handshake
      rw [h1, h2, h3, h4, if_neg e1, if_neg e2, if_neg e1, if_neg hGood, if_neg e2]
      show (if (if e.recvInfo < localVer then e.recvInfo else localVer) < 2
          then (-1 : Int)
          else ((if e.recvInfo < localVer then e.recvInfo else localVer : Nat) : Int)) =
        ((min localVer e.recvInfo : Nat) : Int)
      rcases Nat.lt_or_ge e.recvInfo localVer with hc | hc
      · rw [if_pos hc, if_neg (show ¬(e.recvInfo < 2) by omega)]
        omega
      · have hni : ¬(e.recvInfo < localVer) := by omega
        rw [if_neg hni, if_neg (show ¬(localVer < 2) by omega)]
        omega

theorem c2_handshake_negotiation_witness :
    handle_handshake 3 (hsTransportOk 2) = ((min 3 2 : Nat) : Int) :=
  ((c2_handshake_negotiation 3 (hsTransportOk 2) (by decide) (by decide)
    (by decide) (by decide)).2 (by decide) (by decide)).2 (by decide)

/-- Claim C7 counterexample: the header send reports 4 of the 8 requested
bytes and the status send 2 of the 4 requested, a short write on both
sends, yet send_exit_code treats neither as fatal, because the code tests
only for a negative return value. -/
theorem c7_short_write_not_fatal :
    (send_exit_code { hdrRes := 4, statusRes := 2 } 0).2 = false ∧
    (send_exit_code { hdrRes := 4, statusRes := 2 } 0).1 =
      [VSend.hdr MSG_DATA_EXIT_CODE 4, VSend.int32 0] := by decide

/-- Claim C7 (amended): the exit-code emitter writes the header (type
EXIT_CODE, length 4) and then the 4-byte status as two vchan sends; a send
is fatal exactly when it returns a negative value, so a short positive
write is not fatal. -/
theorem c7_exit_code_send_structure (r : SendRes) (status : Int) :
    ((send_exit_code r status).2 =
      (decide (r.hdrRes < 0) || decide (r.statusRes < 0))) ∧
    (0 ≤ r.hdrRes → 0 ≤ r.statusRes →
      (send_exit_code r status).1 =
        [VSend.hdr MSG_DATA_EXIT_CODE 4, VSend.int32 status]) := by
  unfold send_exit_code
  constructor
  · split_ifs <;> simp_all
  · intro g1 g2
    rw [if_neg (not_lt.mpr g1), if_neg (not_lt.mpr g2)]

/-- Witness for c7_exit_code_send_structure on a fully successful
transport. -/
theorem c7_exit_code_send_structure_witness :
    (send_exit_code { hdrRes := 8, statusRes := 4 } 0).1 =
      [VSend.hdr MSG_DATA_EXIT_CODE 4, VSend.int32 0] :=
  (c7_exit_code_send_structure { hdrRes := 8, statusRes := 4 } 0).2
    (by decide) (by decide)

/-- Claim C9: when the SIGCHLD flag is observed and a non-blocking waitpid
reaps the child, the reap block of the loop records 128 + N as the exit
status for a child terminated by signal N, and the raw exit status
otherwise. -/
theorem c9_wait_status_translation (st : IoState) (e : IterEnv) (w : WaitStatus)
    (hp : 0 < st.childPid) (hc : e.childExited = true) (hw : e.reap = some w) :
    (reapState st e).1.childStatus =
      (match w with
       | WaitStatus.signaled n => 128 + (n : Int)
       | WaitStatus.exited c => (c : Int)) := by
  cases hs : st.stdin <;> cases w <;>
    simp [reapState, hc, hw, hp, closeStdin, closeEvents, exitStatusOfWait, hs]

/-- Witness for c9_wait_status_translation: a child reaped after SIGTERM
is recorded as 128 + 15 = 143. -/
theorem c9_wait_status_translation_witness :
    (reapState (process_child_io_init 5 true 0 MSG_DATA_STDOUT)
      { envChildReapedVchanClosed with
        reap := some (WaitStatus.signaled 15) }).1.childStatus = 143 := by
  have h := c9_wait_status_translation
    (process_child_io_init 5 true 0 MSG_DATA_STDOUT)
    { envChildReapedVchanClosed with reap := some (WaitStatus.signaled 15) }
    (WaitStatus.signaled 15) (by decide) (by decide) (by decide)
  rw [h]
  decide

/-- Claim C1: evaluation of the code bug.  With peer HELLO version 1
against local version 2 the handshake fails (returns -1), yet
handle_new_process_common ignores the failure: in execute-and-detach mode
it still forks the child, sends an EXIT_CODE frame over the vchan and
returns 0, and in exec-cmdline mode it still runs the full I/O session. -/
theorem c1_handshake_failure_not_aborted :
    (handle_new_process_common MSG_JUST_EXEC 2 sessPeerVersionOne).hsResult = -1 ∧
    (handle_new_process_common MSG_JUST_EXEC 2 sessPeerVersionOne).spawned = true ∧
    (handle_new_process_common MSG_JUST_EXEC 2 sessPeerVersionOne).ret = some 0 ∧
    VSend.hdr MSG_DATA_EXIT_CODE 4 ∈
      (handle_new_process_common MSG_JUST_EXEC 2 sessPeerVersionOne).sends ∧
    (handle_new_process_common MSG_EXEC_CMDLINE 2 sessPeerVersionOne).hsResult = -1 ∧
    (handle_new_process_common MSG_EXEC_CMDLINE 2 sessPeerVersionOne).loopKind =
      some ExitKind.vchanGone := by decide

/-- Claim C6 counterexample: with a command line lacking the colon
separator, execute-and-detach forks nothing and sends exit code -1, not 0,
while still returning 0. -/
theorem c6_detach_sends_minus_one_without_colon :
    (handle_new_process_common MSG_JUST_EXEC 2 sessNoColon).spawned = false ∧
    VSend.int32 (-1) ∈ (handle_new_process_common MSG_JUST_EXEC 2 sessNoColon).sends ∧
    VSend.int32 0 ∉ (handle_new_process_common MSG_JUST_EXEC 2 sessNoColon).sends ∧
    (handle_new_process_common MSG_JUST_EXEC 2 sessNoColon).ret = some 0 := by decide

/-- Claim C6 (amended): in execute-and-detach mode, when the command line
contains the colon separator and fork succeeds, the core forks the child,
immediately sends exit code 0 over the vchan right after the handshake
frames, and returns 0; when the spawn fails it sends exit code -1 and still
returns 0. -/
theorem c6_detach_success_behavior (localVer : Nat) (se : SessionEnv)
    (hc : se.cmdlineHasColon = true) (hf : se.forkOk = true)
    (g1 : 0 ≤ se.justExecSend.hdrRes) (g2 : 0 ≤ se.justExecSend.statusRes) :
    (handle_new_process_common MSG_JUST_EXEC localVer se).spawned = true ∧
    (handle_new_process_common MSG_JUST_EXEC localVer se).ret = some 0 ∧
    (handle_new_process_common MSG_JUST_EXEC localVer se).sends =
      handshakeSends localVer se.hs ++
        [VSend.hdr MSG_DATA_EXIT_CODE 4, VSend.int32 0] := by
  have k1 : ¬(se.justExecSend.hdrRes < 0) := not_lt.mpr g1
  have k2 : ¬(se.justExecSend.statusRes < 0) := not_lt.mpr g2
  simp [handle_new_process_common, handle_just_exec, send_exit_code, hc, hf, k1, k2]

/-- Witness for c6_detach_success_behavior on a concrete session. -/
theorem c6_detach_success_behavior_witness :
    (handle_new_process_common MSG_JUST_EXEC 2
      { sessNoColon with cmdlineHasColon := true }).ret = some 0 :=
  (c6_detach_success_behavior 2 { sessNoColon with cmdlineHasColon := true }
    (by decide) (by decide) (by decide) (by decide)).2.1

/-- Claim C3 counterexample: the child is reaped with exit code 0, but the
vchan is found closed in the same iteration, so the session ends with a
recorded local exit code and no EXIT_CODE message is ever sent. -/
theorem c3_exit_code_missing_on_vchan_close :
    runSends (process_child_io 5 true 0 MSG_DATA_STDOUT
      [envChildReapedVchanClosed]) = [] ∧
    (runState (process_child_io 5 true 0 MSG_DATA_STDOUT
      [envChildReapedVchanClosed])).childStatus = 0 ∧
    runKind (process_child_io 5 true 0 MSG_DATA_STDOUT
      [envChildReapedVchanClosed]) = some ExitKind.vchanGone := by decide

/-- Claim C4 counterexample: in service-connect mode an inbound EXIT_CODE
makes the loop return the remote status immediately; stdout and stderr are
closed but the stdin descriptor is still open when the session ends, so not
every opened fd reaches the closed state. -/
theorem c4_stdin_left_open_on_remote_exit :
    runKind (process_child_io 0 true 0 MSG_DATA_STDIN
      [envInboundExitSeven]) = some ExitKind.remoteEarly ∧
    runRet (process_child_io 0 true 0 MSG_DATA_STDIN
      [envInboundExitSeven]) = some 7 ∧
    (runState (process_child_io 0 true 0 MSG_DATA_STDIN
      [envInboundExitSeven])).stdin.isLive = true := by decide

/-- Claim C5 counterexample: in service-connect mode an inbound EXIT_CODE
exits the loop in an iteration whose state satisfies neither the all-done
condition nor the disconnected-vchan condition. -/
theorem c5_early_return_outside_conditions :
    allDoneCond (reapState (process_child_io_init 0 true 0 MSG_DATA_STDIN)
      envInboundExitSeven).1 = false ∧
    vchanGoneCond (reapState (process_child_io_init 0 true 0 MSG_DATA_STDIN)
      envInboundExitSeven).1 envInboundExitSeven = false ∧
    stepKind (stepIter (process_child_io_init 0 true 0 MSG_DATA_STDIN)
      envInboundExitSeven) = some ExitKind.remoteEarly := by decide

/-- Claim C8 counterexample: when the all-done condition holds with a
recorded local exit code, the EXIT_CODE frame is sent without consulting
the ring space; here both vchan sends are attempted while the outbound
buffer has no free space at all. -/
theorem c8_exit_code_send_ungated :
    envNoRingSpace.bufferSpace = 0 ∧
    stepSends (stepIter stAllDoneRecorded envNoRingSpace) =
      [VSend.hdr MSG_DATA_EXIT_CODE 4, VSend.int32 0] := by decide

@[simp] theorem closeStdin_fst (st : IoState) :
    (closeStdin st).1 = { st with stdin := FdSlot.shut st.stdin.gen } := by
  cases h : st.stdin <;> simp [closeStdin, closeEvents, h, FdSlot.gen]

@[simp] theorem closeStdin_snd (st : IoState) :
    (closeStdin st).2 =
      if st.stdin.isLive then [(SlotId.stdinS, st.stdin.gen)] else [] := by
  cases h : st.stdin <;>
    simp [closeStdin, closeEvents, h, FdSlot.gen, FdSlot.isLive]

@[simp] theorem closeStdout_fst (st : IoState) :
    (closeStdout st).1 = { st with stdout := FdSlot.shut st.stdout.gen } := by
  cases h : st.stdout <;> simp [closeStdout, closeEvents, h, FdSlot.gen]

@[simp] theorem closeStdout_snd (st : IoState) :
    (closeStdout st).2 =
      if st.stdout.isLive then [(SlotId.stdoutS, st.stdout.gen)] else [] := by
  cases h : st.stdout <;>
    simp [closeStdout, closeEvents, h, FdSlot.gen, FdSlot.isLive]

@[simp] theorem closeStderr_fst (st : IoState) :
    (closeStderr st).1 = { st with stderr := FdSlot.shut st.stderr.gen } := by
  cases h : st.stderr <;> simp [closeStderr, closeEvents, h, FdSlot.gen]

@[simp] theorem closeStderr_snd (st : IoState) :
    (closeStderr st).2 =
      if st.stderr.isLive then [(SlotId.stderrS, st.stderr.gen)] else [] := by
  cases h : st.stderr <;>
    simp [closeStderr, closeEvents, h, FdSlot.gen, FdSlot.isLive]

theorem stepGood_nil {a b : IoState} (h : ∀ id, floorId a id = floorId b id) :
    StepGood a b [] := by
  refine ⟨List.nodup_nil, ?_, fun id => le_of_eq (h id)⟩
  intro p hp
  simp at hp

theorem stepGood_comp {a b c : IoState} {l1 l2 : List CloseEv}
    (h1 : StepGood a b l1) (h2 : StepGood b c l2) :
    StepGood a c (l1 ++ l2) := by
  obtain ⟨n1, f1, m1⟩ := h1
  obtain ⟨n2, f2, m2⟩ := h2
  refine ⟨?_, ?_, fun id => le_trans (m1 id) (m2 id)⟩
  · rw [List.nodup_append]
    refine ⟨n1, n2, ?_⟩
    intro p hp1 hp2
    have a1 := (f1 p hp1).2
    have a2 := (f2 p hp2).1
    omega
  · intro p hp
    rcases List.mem_append.mp hp with h | h
    · exact ⟨(f1 p h).1, lt_of_lt_of_le (f1 p h).2 (m2 p.1)⟩
    · exact ⟨le_trans (m1 p.1) (f2 p h).1, (f2 p h).2⟩

theorem closeStdin_good (st : IoState) :
    StepGood st (closeStdin st).1 (closeStdin st).2 := by
  refine ⟨?_, ?_, ?_⟩
  · rw [closeStdin_snd]
    split <;> simp
  · intro p hp
    rw [closeStdin_snd] at hp
    rw [closeStdin_fst]
    rcases hs : st.stdin with g | g <;> rw [hs] at hp <;>
      simp [FdSlot.isLive] at hp
    subst hp
    simp [floorId, floorOf, FdSlot.gen, hs]
  · intro id
    rw [closeStdin_fst]
    cases id <;> rcases hs : st.stdin with g | g <;>
      simp [floorId, floorOf, FdSlot.gen, hs]

theorem closeStdout_good (st : IoState) :
    StepGood st (closeStdout st).1 (closeStdout st).2 := by
  refine ⟨?_, ?_, ?_⟩
  · rw [closeStdout_snd]
    split <;> simp
  · intro p hp
    rw [closeStdout_snd] at hp
    rw [closeStdout_fst]
    rcases hs : st.stdout with g | g <;> rw [hs] at hp <;>
      simp [FdSlot.isLive] at hp
    subst hp
    simp [floorId, floorOf, FdSlot.gen, hs]
  · intro id
    rw [closeStdout_fst]
    cases id <;> rcases hs : st.stdout with g | g <;>
      simp [floorId, floorOf, FdSlot.gen, hs]

theorem closeStderr_good (st : IoState) :
    StepGood st (closeStderr st).1 (closeStderr st).2 := by
  refine ⟨?_, ?_, ?_⟩
  · rw [closeStderr_snd]
    split <;> simp
  · intro p hp
    rw [closeStderr_snd] at hp
    rw [closeStderr_fst]
    rcases hs : st.stderr with g | g <;> rw [hs] at hp <;>
      simp [FdSlot.isLive] at hp
    subst hp
    simp [floorId, floorOf, FdSlot.gen, hs]
  · intro id
    rw [closeStderr_fst]
    cases id <;> rcases hs : st.stderr with g | g <;>
      simp [floorId, floorOf, FdSlot.gen, hs]

theorem teardown_good (st : IoState) :
    StepGood st (teardown st).1 (teardown st).2 := by
  show StepGood st (closeStderr (closeStdin (closeStdout st).1).1).1
    (((closeStdout st).2 ++ (closeStdin (closeStdout st).1).2) ++
      (closeStderr (closeStdin (closeStdout st).1).1).2)
  rw [List.append_assoc]
  exact stepGood_comp (closeStdout_good st)
    (stepGood_comp (closeStdin_good _) (closeStderr_good _))

theorem raiseUsr1_cases (st : IoState) (e : IterEnv) :
    raiseUsr1 st e = st ∨ raiseUsr1 st e = { st with stdioFlag := 1 } := by
  unfold raiseUsr1
  split
  · right; rfl
  · left; rfl

theorem dupStep_cases (st : IoState) :
    dupStep st = some st ∨ dupStep st = none ∨
    dupStep st = some { st with stdioFlag := 2 } ∨
    (st.stdout.isLive = false ∧
      dupStep st = some { st with stdout := FdSlot.live (st.stdout.gen + 1), stdioFlag := 2 }) := by
  unfold dupStep
  by_cases h1 : (st.stdioFlag == 1) = true
  · rw [if_pos h1]
    by_cases h2 : st.stdout.isLive = true
    · rw [if_pos h2]
      by_cases h3 : st.stdin.isLive = true
      · rw [if_pos h3]; right; right; left; rfl
      · rw [if_neg h3]; right; left; rfl
    · rw [if_neg h2]
      by_cases h3 : st.stdin.isLive = true
      · rw [if_pos h3]; right; right; right
        exact ⟨by simpa using h2, rfl⟩
      · rw [if_neg h3]; right; left; rfl
  · rw [if_neg h1]; left; rfl

theorem reapState_cases (st : IoState) (e : IterEnv) :
    reapState st e = (st, []) ∨
    ∃ w, e.childExited = true ∧ e.reap = some w ∧ 0 < st.childPid ∧
      reapState st e = closeStdin { st with childStatus := exitStatusOfWait w } := by
  by_cases hce : e.childExited = true
  · cases hr : e.reap with
    | none =>
      left
      simp [reapState, hce, hr]
    | some w =>
      by_cases hp : 0 < st.childPid
      · right
        refine ⟨w, hce, rfl, hp, ?_⟩
        simp [reapState, hce, hr, hp]
      · left
        simp [reapState, hce, hr, hp]
  · left
    simp [reapState, hce]

theorem stepGood_state {a b : IoState} (h1 : b.stdin = a.stdin)
    (h2 : b.stdout = a.stdout) (h3 : b.stderr = a.stderr) : StepGood a b [] := by
  apply stepGood_nil
  intro id
  cases id <;> simp [floorId, h1, h2, h3]

theorem raiseUsr1_good (st : IoState) (e : IterEnv) :
    StepGood st (raiseUsr1 st e) [] := by
  rcases raiseUsr1_cases st e with h | h <;> rw [h]
  · exact stepGood_nil fun _ => rfl
  · exact stepGood_state rfl rfl rfl

theorem dupStep_good {st st2 : IoState} (h : dupStep st = some st2) :
    StepGood st st2 [] := by
  rcases dupStep_cases st with h1 | h1 | h1 | ⟨hl, h1⟩ <;> rw [h1] at h <;>
    cases h
  · exact stepGood_nil fun _ => rfl
  · exact stepGood_state rfl rfl rfl
  · apply stepGood_nil
    intro id
    rcases hs : st.stdout with g | g
    · rw [hs] at hl; simp [FdSlot.isLive] at hl
    · cases id <;> simp [floorId, floorOf, FdSlot.gen, hs]

theorem reapState_good (st : IoState) (e : IterEnv) :
    StepGood st (reapState st e).1 (reapState st e).2 := by
  rcases reapState_cases st e with h | ⟨w, _, _, _, h⟩ <;> rw [h]
  · exact stepGood_nil fun _ => rfl
  · have h0 : StepGood st { st with childStatus := exitStatusOfWait w } [] :=
      stepGood_state rfl rfl rfl
    simpa using stepGood_comp h0 (closeStdin_good _)

theorem handle_input_model_sends (ty space : Nat) (f : Bool) (o : InputOutcome) :
    ∀ v ∈ (handle_input_model ty space f o).sends, frameOf ty v = true := by
  intro v hv
  cases o with
  | again => simp [handle_input_model] at hv
  | rdata n =>
    simp only [handle_input_model] at hv
    split at hv
    · simp at hv
    · simp at hv
      rcases hv with hv | hv <;> rw [hv] <;> simp [frameOf]
  | ieof =>
    simp only [handle_input_model] at hv
    split at hv
    · simp at hv
      rw [hv]
      simp [frameOf]
    · simp at hv
  | ierror => simp [handle_input_model] at hv

theorem stderrDispatch_shape (st : IoState) (cl : List CloseEv) (acc : List VSend)
    (e : IterEnv) (w rdy : Bool) :
    (stepState (stderrDispatch st cl acc e w rdy) = st ∧
      stepCloses (stderrDispatch st cl acc e w rdy) = cl) ∨
    (stepState (stderrDispatch st cl acc e w rdy) = (closeStderr st).1 ∧
      stepCloses (stderrDispatch st cl acc e w rdy) = cl ++ (closeStderr st).2) := by
  simp only [stderrDispatch]
  split
  · split
    · left; exact ⟨rfl, rfl⟩
    · split
      · right
        constructor <;> simp [stepState, stepCloses]
      · left; exact ⟨rfl, rfl⟩
  · left; exact ⟨rfl, rfl⟩

theorem stderrDispatch_good (st : IoState) (cl : List CloseEv) (acc : List VSend)
    (e : IterEnv) (w rdy : Bool) :
    ∃ cl2, stepCloses (stderrDispatch st cl acc e w rdy) = cl ++ cl2 ∧
      StepGood st (stepState (stderrDispatch st cl acc e w rdy)) cl2 := by
  rcases stderrDispatch_shape st cl acc e w rdy with ⟨h1, h2⟩ | ⟨h1, h2⟩
  · exact ⟨[], by simp [h2], by rw [h1]; exact stepGood_nil fun _ => rfl⟩
  · exact ⟨(closeStderr st).2, h2, by rw [h1]; exact closeStderr_good st⟩

theorem stderrDispatch_kind (st : IoState) (cl : List CloseEv) (acc : List VSend)
    (e : IterEnv) (w rdy : Bool) :
    stepKind (stderrDispatch st cl acc e w rdy) = none ∨
    stepKind (stderrDispatch st cl acc e w rdy) = some ExitKind.fatal := by
  simp only [stderrDispatch]
  split
  · split
    · right; rfl
    · split
      · left; rfl
      · left; rfl
  · left; rfl

theorem stderrDispatch_sends (st : IoState) (cl : List CloseEv) (acc : List VSend)
    (e : IterEnv) (w rdy : Bool) :
    ∃ s2, stepSends (stderrDispatch st cl acc e w rdy) = acc ++ s2 ∧
      (∀ v ∈ s2, frameOf MSG_DATA_STDERR v = true) ∧
      (s2 = [] ∨ w = true) := by
  simp only [stderrDispatch]
  split
  · next hcond =>
    have hw : w = true := by
      simp only [Bool.and_eq_true] at hcond
      exact hcond.1.2
    split
    · exact ⟨_, rfl, handle_input_model_sends _ _ _ _, Or.inr hw⟩
    · split
      · exact ⟨_, rfl, handle_input_model_sends _ _ _ _, Or.inr hw⟩
      · exact ⟨_, rfl, handle_input_model_sends _ _ _ _, Or.inr hw⟩
  · exact ⟨[], by simp [stepSends], by simp, Or.inl rfl⟩

theorem stdoutDispatch_good (st : IoState) (cl : List CloseEv) (e : IterEnv)
    (wo we so se' : Bool) :
    ∃ cl2, stepCloses (stdoutDispatch st cl e wo we so se') = cl ++ cl2 ∧
      StepGood st (stepState (stdoutDispatch st cl e wo we so se')) cl2 := by
  simp only [stdoutDispatch]
  split
  · split
    · exact ⟨[], by simp [stepCloses], by simp only [stepState]; exact stepGood_nil fun _ => rfl⟩
    · split
      · obtain ⟨cl2, h1, h2⟩ :=
          stderrDispatch_good (closeStdout st).1 (cl ++ (closeStdout st).2) _ e we se'
        refine ⟨(closeStdout st).2 ++ cl2, ?_, ?_⟩
        · rw [h1, List.append_assoc]
        · exact stepGood_comp (closeStdout_good st) h2
      · exact stderrDispatch_good st cl _ e we se'
  · exact stderrDispatch_good st cl _ e we se'

theorem stdoutDispatch_kind (st : IoState) (cl : List CloseEv) (e : IterEnv)
    (wo we so se' : Bool) :
    stepKind (stdoutDispatch st cl e wo we so se') = none ∨
    stepKind (stdoutDispatch st cl e wo we so se') = some ExitKind.fatal := by
  simp only [stdoutDispatch]
  split
  · split
    · right; rfl
    · split
      · exact stderrDispatch_kind _ _ _ _ _ _
      · exact stderrDispatch_kind _ _ _ _ _ _
  · exact stderrDispatch_kind _ _ _ _ _ _

theorem stderrDispatch_preserve (st : IoState) (cl : List CloseEv) (acc : List VSend)
    (e : IterEnv) (w rdy : Bool) :
    (stepState (stderrDispatch st cl acc e w rdy)).childPid = st.childPid ∧
    (stepState (stderrDispatch st cl acc e w rdy)).childStatus = st.childStatus ∧
    (stepState (stderrDispatch st cl acc e w rdy)).remoteStatus = st.remoteStatus ∧
    (stepState (stderrDispatch st cl acc e w rdy)).stdoutMsgType = st.stdoutMsgType ∧
    (stepState (stderrDispatch st cl acc e w rdy)).stdin = st.stdin ∧
    (stepState (stderrDispatch st cl acc e w rdy)).bufLen = st.bufLen := by
  rcases stderrDispatch_shape st cl acc e w rdy with ⟨h1, _⟩ | ⟨h1, _⟩ <;>
    rw [h1] <;> simp

theorem stdoutDispatch_preserve (st : IoState) (cl : List CloseEv) (e : IterEnv)
    (wo we so se' : Bool) :
    (stepState (stdoutDispatch st cl e wo we so se')).childPid = st.childPid ∧
    (stepState (stdoutDispatch st cl e wo we so se')).childStatus = st.childStatus ∧
    (stepState (stdoutDispatch st cl e wo we so se')).remoteStatus = st.remoteStatus ∧
    (stepState (stdoutDispatch st cl e wo we so se')).stdoutMsgType = st.stdoutMsgType ∧
    (stepState (stdoutDispatch st cl e wo we so se')).stdin = st.stdin ∧
    (stepState (stdoutDispatch st cl e wo we so se')).bufLen = st.bufLen := by
  simp only [stdoutDispatch]
  split
  · split
    · simp [stepState]
    · split
      · have h := stderrDispatch_preserve (closeStdout st).1 (cl ++ (closeStdout st).2)
          (handle_input_model st.stdoutMsgType e.bufferSpace
            (decide (st.stdioFlag < 2)) e.stdoutInp).sends e we se'
        rw [closeStdout_fst] at h
        simpa using h
      · exact stderrDispatch_preserve st cl _ e we se'
  · exact stderrDispatch_preserve st cl _ e we se'

theorem stdoutDispatch_sends (st : IoState) (cl : List CloseEv) (e : IterEnv)
    (wo we so se' : Bool) :
    ∃ s1 s2, stepSends (stdoutDispatch st cl e wo we so se') = s1 ++ s2 ∧
      (∀ v ∈ s1, frameOf st.stdoutMsgType v = true) ∧
      (∀ v ∈ s2, frameOf MSG_DATA_STDERR v = true) ∧
      (s1 = [] ∨ wo = true) ∧ (s2 = [] ∨ we = true) := by
  simp only [stdoutDispatch]
  split
  · next hcond =>
    have hwo : wo = true := by
      simp only [Bool.and_eq_true] at hcond
      exact hcond.1.2
    split
    · refine ⟨(handle_input_model st.stdoutMsgType e.bufferSpace
          (decide (st.stdioFlag < 2)) e.stdoutInp).sends, [], ?_,
        handle_input_model_sends _ _ _ _, by simp, Or.inr hwo, Or.inl rfl⟩
      simp [stepSends]
    · split
      · obtain ⟨s2, h1, h2, h3⟩ :=
          stderrDispatch_sends (closeStdout st).1 (cl ++ (closeStdout st).2) _ e we se'
        exact ⟨_, s2, h1, handle_input_model_sends _ _ _ _, h2, Or.inr hwo, h3⟩
      · obtain ⟨s2, h1, h2, h3⟩ := stderrDispatch_sends st cl _ e we se'
        exact ⟨_, s2, h1, handle_input_model_sends _ _ _ _, h2, Or.inr hwo, h3⟩
  · obtain ⟨s2, h1, h2, h3⟩ := stderrDispatch_sends st cl _ e we se'
    refine ⟨[], s2, by simpa using h1, by simp, h2, Or.inl rfl, h3⟩

theorem stepIter_cases (st : IoState) (e : IterEnv) :
    (allDoneCond (reapSt st e) = true ∧ -1 < (reapSt st e).childStatus ∧
      (send_exit_code e.exitSend (reapSt st e).childStatus).2 = true ∧
      stepIter st e = StepOut.halt (send_exit_code e.exitSend (reapSt st e).childStatus).1
        (reapCl st e) ExitKind.fatal 0 (reapSt st e)) ∨
    (allDoneCond (reapSt st e) = true ∧ -1 < (reapSt st e).childStatus ∧
      (send_exit_code e.exitSend (reapSt st e).childStatus).2 = false ∧
      stepIter st e = StepOut.halt (send_exit_code e.exitSend (reapSt st e).childStatus).1
        (reapCl st e ++ (teardown (reapSt st e)).2) ExitKind.allDone
        (loopReturn (teardown (reapSt st e)).1) (teardown (reapSt st e)).1) ∨
    (allDoneCond (reapSt st e) = true ∧ ¬(-1 < (reapSt st e).childStatus) ∧
      stepIter st e = StepOut.halt [] (reapCl st e ++ (teardown (reapSt st e)).2)
        ExitKind.allDone (loopReturn (teardown (reapSt st e)).1) (teardown (reapSt st e)).1) ∨
    (allDoneCond (reapSt st e) = false ∧ vchanGoneCond (reapSt st e) e = true ∧
      stepIter st e = StepOut.halt [] (reapCl st e ++ (teardown (reapSt st e)).2)
        ExitKind.vchanGone (loopReturn (teardown (reapSt st e)).1) (teardown (reapSt st e)).1) ∨
    (allDoneCond (reapSt st e) = false ∧ vchanGoneCond (reapSt st e) e = false ∧
      dupStep (postSig st e) = none ∧
      stepIter st e = StepOut.halt [] (reapCl st e) ExitKind.fatal 0 (postSig st e)) ∨
    (∃ st3, allDoneCond (reapSt st e) = false ∧ vchanGoneCond (reapSt st e) e = false ∧
      dupStep (postSig st e) = some st3 ∧ e.sel = SelectOutcome.eintr ∧
      stepIter st e = StepOut.cont [] (reapCl st e) st3) ∨
    (∃ st3, allDoneCond (reapSt st e) = false ∧ vchanGoneCond (reapSt st e) e = false ∧
      dupStep (postSig st e) = some st3 ∧ e.sel = SelectOutcome.sfail ∧
      stepIter st e = StepOut.halt [] (reapCl st e ++ (teardown st3).2) ExitKind.selectFail
        (loopReturn (teardown st3).1) (teardown st3).1) ∨
    (∃ st3 v so sb, allDoneCond (reapSt st e) = false ∧ vchanGoneCond (reapSt st e) e = false ∧
      dupStep (postSig st e) = some st3 ∧ e.sel = SelectOutcome.ready v so sb ∧
      (v && !e.vchanWaitOk) = true ∧
      stepIter st e = StepOut.halt [] (reapCl st e) ExitKind.fatal 0 st3) ∨
    (∃ st3 v so sb, allDoneCond (reapSt st e) = false ∧ vchanGoneCond (reapSt st e) e = false ∧
      dupStep (postSig st e) = some st3 ∧ e.sel = SelectOutcome.ready v so sb ∧
      (v && !e.vchanWaitOk) = false ∧ e.remote = RemoteOutcome.rerror ∧
      stepIter st e = StepOut.halt [] (reapCl st e) ExitKind.fatal 0 st3) ∨
    (∃ st3 v so sb, allDoneCond (reapSt st e) = false ∧ vchanGoneCond (reapSt st e) e = false ∧
      dupStep (postSig st e) = some st3 ∧ e.sel = SelectOutcome.ready v so sb ∧
      (v && !e.vchanWaitOk) = false ∧ e.remote = RemoteOutcome.reof ∧
      stepIter st e = stdoutDispatch (closeStdin st3).1 (reapCl st e ++ (closeStdin st3).2) e
        (stdoutWatched st3 e) (stderrWatched st3 e) so sb) ∨
    (∃ st3 v so sb s, allDoneCond (reapSt st e) = false ∧ vchanGoneCond (reapSt st e) e = false ∧
      dupStep (postSig st e) = some st3 ∧ e.sel = SelectOutcome.ready v so sb ∧
      (v && !e.vchanWaitOk) = false ∧ e.remote = RemoteOutcome.rexited s ∧
      (closeStderr (closeStdout { st3 with remoteStatus := s }).1).1.childPid = 0 ∧
      stepIter st e = StepOut.halt []
        (reapCl st e ++ (closeStdout { st3 with remoteStatus := s }).2 ++
          (closeStderr (closeStdout { st3 with remoteStatus := s }).1).2)
        ExitKind.remoteEarly
        (closeStderr (closeStdout { st3 with remoteStatus := s }).1).1.remoteStatus
        (closeStderr (closeStdout { st3 with remoteStatus := s }).1).1) ∨
    (∃ st3 v so sb s, allDoneCond (reapSt st e) = false ∧ vchanGoneCond (reapSt st e) e = false ∧
      dupStep (postSig st e) = some st3 ∧ e.sel = SelectOutcome.ready v so sb ∧
      (v && !e.vchanWaitOk) = false ∧ e.remote = RemoteOutcome.rexited s ∧
      ¬((closeStderr (closeStdout { st3 with remoteStatus := s }).1).1.childPid = 0) ∧
      stepIter st e = stdoutDispatch (closeStderr (closeStdout { st3 with remoteStatus := s }).1).1
        (reapCl st e ++ (closeStdout { st3 with remoteStatus := s }).2 ++
          (closeStderr (closeStdout { st3 with remoteStatus := s }).1).2) e
        (stdoutWatched st3 e) (stderrWatched st3 e) so sb) ∨
    (∃ st3 v so sb nb, allDoneCond (reapSt st e) = false ∧ vchanGoneCond (reapSt st e) e = false ∧
      dupStep (postSig st e) = some st3 ∧ e.sel = SelectOutcome.ready v so sb ∧
      (v && !e.vchanWaitOk) = false ∧ e.remote = RemoteOutcome.ok nb ∧
      stepIter st e = stdoutDispatch { st3 with bufLen := nb } (reapCl st e) e
        (stdoutWatched st3 e) (stderrWatched st3 e) so sb) := by
  by_cases h1 : allDoneCond (reapSt st e) = true
  · by_cases h2 : -1 < (reapSt st e).childStatus
    · by_cases h3 : (send_exit_code e.exitSend (reapSt st e).childStatus).2 = true
      · refine Or.inl ⟨h1, h2, h3, ?_⟩
        simp only [reapSt, reapCl] at h1 h2 h3 ⊢
        simp [stepIter, h1, h2, h3]
      · refine Or.inr (Or.inl ⟨h1, h2, by simpa using h3, ?_⟩)
        simp only [reapSt, reapCl] at h1 h2 h3 ⊢
        simp [stepIter, h1, h2, h3]
    · refine Or.inr (Or.inr (Or.inl ⟨h1, h2, ?_⟩))
      simp only [reapSt, reapCl] at h1 h2 ⊢
      simp [stepIter, h1, h2]
  · have h1f : allDoneCond (reapSt st e) = false := by simpa using h1
    by_cases h2 : vchanGoneCond (reapSt st e) e = true
    · refine Or.inr (Or.inr (Or.inr (Or.inl ⟨h1f, h2, ?_⟩)))
      simp only [reapSt, reapCl] at h1 h2 ⊢
      simp [stepIter, h1, h2]
    · have h2f : vchanGoneCond (reapSt st e) e = false := by simpa using h2
      cases hd : dupStep (postSig st e) with
      | none =>
        refine Or.inr (Or.inr (Or.inr (Or.inr (Or.inl ⟨h1f, h2f, rfl, ?_⟩))))
        simp only [reapSt, reapCl, postSig] at h1 h2 hd ⊢
        simp [stepIter, h1, h2, hd]
      | some st3 =>
        cases hs : e.sel with
        | eintr =>
          refine Or.inr (Or.inr (Or.inr (Or.inr (Or.inr (Or.inl ⟨st3, h1f, h2f, rfl, rfl, ?_⟩)))))
          simp only [reapSt, reapCl, postSig] at h1 h2 hd ⊢
          simp [stepIter, h1, h2, hd, hs]
        | sfail =>
          refine Or.inr (Or.inr (Or.inr (Or.inr (Or.inr (Or.inr (Or.inl
            ⟨st3, h1f, h2f, rfl, rfl, ?_⟩))))))
          simp only [reapSt, reapCl, postSig] at h1 h2 hd ⊢
          simp [stepIter, h1, h2, hd, hs]
        | ready v so sb =>
          by_cases hv : (v && !e.vchanWaitOk) = true
          · refine Or.inr (Or.inr (Or.inr (Or.inr (Or.inr (Or.inr (Or.inr (Or.inl
              ⟨st3, v, so, sb, h1f, h2f, rfl, rfl, hv, ?_⟩)))))))
            simp only [reapSt, reapCl, postSig] at h1 h2 hd ⊢
            simp [stepIter, h1, h2, hd, hs, hv]
          · have hvf : (v && !e.vchanWaitOk) = false := by simpa using hv
            cases hr : e.remote with
            | rerror =>
              refine Or.inr (Or.inr (Or.inr (Or.inr (Or.inr (Or.inr (Or.inr (Or.inr (Or.inl
                ⟨st3, v, so, sb, h1f, h2f, rfl, rfl, hvf, rfl, ?_⟩))))))))
              simp only [reapSt, reapCl, postSig] at h1 h2 hd ⊢
              simp [stepIter, h1, h2, hd, hs, hv, hr]
            | reof =>
              refine Or.inr (Or.inr (Or.inr (Or.inr (Or.inr (Or.inr (Or.inr (Or.inr (Or.inr
                (Or.inl ⟨st3, v, so, sb, h1f, h2f, rfl, rfl, hvf, rfl, ?_⟩)))))))))
              simp only [reapSt, reapCl, postSig] at h1 h2 hd ⊢
              simp [stepIter, h1, h2, hd, hs, hv, hr]
            | rexited s =>
              by_cases hp : (closeStderr (closeStdout { st3 with remoteStatus := s }).1).1.childPid = 0
              · refine Or.inr (Or.inr (Or.inr (Or.inr (Or.inr (Or.inr (Or.inr (Or.inr (Or.inr
                  (Or.inr (Or.inl ⟨st3, v, so, sb, s, h1f, h2f, rfl, rfl, hvf, rfl, hp, ?_⟩))))))))))
                simp only [reapSt, reapCl, postSig] at h1 h2 hd ⊢
                simp at hp
                simp [stepIter, h1, h2, hd, hs, hv, hr, hp]
              · refine Or.inr (Or.inr (Or.inr (Or.inr (Or.inr (Or.inr (Or.inr (Or.inr (Or.inr
                  (Or.inr (Or.inr (Or.inl
                    ⟨st3, v, so, sb, s, h1f, h2f, rfl, rfl, hvf, rfl, hp, ?_⟩)))))))))))
                simp only [reapSt, reapCl, postSig] at h1 h2 hd ⊢
                simp at hp
                simp [stepIter, h1, h2, hd, hs, hv, hr, hp]
            | ok nb =>
              refine Or.inr (Or.inr (Or.inr (Or.inr (Or.inr (Or.inr (Or.inr (Or.inr (Or.inr
                (Or.inr (Or.inr (Or.inr
                  ⟨st3, v, so, sb, nb, h1f, h2f, rfl, rfl, hvf, rfl, ?_⟩)))))))))))
              simp only [reapSt, reapCl, postSig] at h1 h2 hd ⊢
              simp [stepIter, h1, h2, hd, hs, hv, hr]

theorem reapSt_preserve (st : IoState) (e : IterEnv) :
    (reapSt st e).childPid = st.childPid ∧
    (reapSt st e).stdoutMsgType = st.stdoutMsgType ∧
    (reapSt st e).remoteStatus = st.remoteStatus ∧
    (reapSt st e).stdout = st.stdout ∧
    (reapSt st e).stderr = st.stderr ∧
    (reapSt st e).bufLen = st.bufLen := by
  rcases reapState_cases st e with h | ⟨w, _, _, _, h⟩ <;> simp [reapSt, h]

theorem postSig_preserve (st : IoState) (e : IterEnv) :
    (postSig st e).childPid = st.childPid ∧
    (postSig st e).stdoutMsgType = st.stdoutMsgType := by
  have h := reapSt_preserve st e
  rcases raiseUsr1_cases (reapSt st e) e with h2 | h2 <;>
    simp [postSig, h2, h.1, h.2.1]

theorem dup_preserve {x y : IoState} (hd : dupStep x = some y) :
    y.childPid = x.childPid ∧ y.stdoutMsgType = x.stdoutMsgType := by
  rcases dupStep_cases x with h | h | h | ⟨_, h⟩ <;> rw [h] at hd <;> cases hd <;>
    simp

theorem teardown_preserve (st : IoState) :
    (teardown st).1.childPid = st.childPid ∧
    (teardown st).1.childStatus = st.childStatus ∧
    (teardown st).1.remoteStatus = st.remoteStatus ∧
    (teardown st).1.stdoutMsgType = st.stdoutMsgType ∧
    (teardown st).1.stdin.isLive = false ∧
    (teardown st).1.stdout.isLive = false ∧
    (teardown st).1.stderr.isLive = false := by
  simp [teardown, FdSlot.isLive]

theorem send_exit_code_exitLast (r : SendRes) (v : Int) :
    exitLast (send_exit_code r v).1 = true := by
  unfold send_exit_code
  split_ifs <;> simp [exitLast, tailAfterExit, isExitHdr]

theorem frameOf_not_exit {ty : Nat} (hty : ty ≠ MSG_DATA_EXIT_CODE) :
    ∀ v, frameOf ty v = true → isExitHdr v = false := by
  intro v hv
  cases v with
  | hdr t len =>
    simp [frameOf] at hv
    simp [isExitHdr, hv]
    exact hty
  | bytes n => simp [isExitHdr]
  | int32 x => simp [isExitHdr]
  | word x => simp [isExitHdr]

theorem exitLast_of_countP0 (l : List VSend) (h : l.countP isExitHdr = 0) :
    exitLast l = true := by
  induction l with
  | nil => rfl
  | cons v t ih =>
    rw [List.countP_cons] at h
    have hv : isExitHdr v = false := by
      by_cases hb : isExitHdr v = true
      · simp [hb] at h
      · simpa using hb
    simp only [exitLast, hv, if_false]
    exact ih (by omega)

theorem exitLast_append (s t : List VSend) (hs : s.countP isExitHdr = 0)
    (ht : exitLast t = true) : exitLast (s ++ t) = true := by
  induction s with
  | nil => simpa
  | cons v l ih =>
    rw [List.countP_cons] at hs
    have hv : isExitHdr v = false := by
      by_cases hb : isExitHdr v = true
      · simp [hb] at hs
      · simpa using hb
    simp only [List.cons_append, exitLast, hv, if_false]
    exact ih (by omega)

theorem msgTypeOK_not_exit {st : IoState} (hm : msgTypeOK st) :
    st.stdoutMsgType ≠ MSG_DATA_EXIT_CODE := by
  rcases hm with h | h <;> rw [h] <;> decide

theorem stderr_not_exit : MSG_DATA_STDERR ≠ MSG_DATA_EXIT_CODE := by decide

theorem dispatchSends_countP0 {st : IoState} {cl : List CloseEv} {e : IterEnv}
    {wo we so sb : Bool} (hm : st.stdoutMsgType ≠ MSG_DATA_EXIT_CODE) :
    (stepSends (stdoutDispatch st cl e wo we so sb)).countP isExitHdr = 0 := by
  obtain ⟨s1, s2, h1, h2, h3, _, _⟩ := stdoutDispatch_sends st cl e wo we so sb
  rw [h1, List.countP_append]
  have z1 : s1.countP isExitHdr = 0 := by
    rw [List.countP_eq_zero]
    intro v hv
    simp [frameOf_not_exit hm v (h2 v hv)]
  have z2 : s2.countP isExitHdr = 0 := by
    rw [List.countP_eq_zero]
    intro v hv
    simp [frameOf_not_exit stderr_not_exit v (h3 v hv)]
  omega

theorem stepIter_good (st : IoState) (e : IterEnv) :
    StepGood st (stepState (stepIter st e)) (stepCloses (stepIter st e)) := by
  have hre : StepGood st (reapSt st e) (reapCl st e) := reapState_good st e
  rcases stepIter_cases st e with
    ⟨_, _, _, h⟩ | ⟨_, _, _, h⟩ | ⟨_, _, h⟩ | ⟨_, _, h⟩ | ⟨_, _, _, h⟩ |
    ⟨st3, _, _, hd, _, h⟩ | ⟨st3, _, _, hd, _, h⟩ |
    ⟨st3, v, so, sb, _, _, hd, _, _, h⟩ |
    ⟨st3, v, so, sb, _, _, hd, _, _, _, h⟩ |
    ⟨st3, v, so, sb, _, _, hd, _, _, _, h⟩ |
    ⟨st3, v, so, sb, s, _, _, hd, _, _, _, _, h⟩ |
    ⟨st3, v, so, sb, s, _, _, hd, _, _, _, _, h⟩ |
    ⟨st3, v, so, sb, nb, _, _, hd, _, _, _, h⟩
  · rw [h]; simpa only [stepState, stepCloses] using hre
  · rw [h]
    simpa only [stepState, stepCloses] using stepGood_comp hre (teardown_good _)
  · rw [h]
    simpa only [stepState, stepCloses] using stepGood_comp hre (teardown_good _)
  · rw [h]
    simpa only [stepState, stepCloses] using stepGood_comp hre (teardown_good _)
  · rw [h]
    simp only [stepState, stepCloses]
    simpa using stepGood_comp hre (raiseUsr1_good _ _)
  · rw [h]
    simp only [stepState, stepCloses]
    simpa using stepGood_comp (stepGood_comp hre (raiseUsr1_good _ _)) (dupStep_good hd)
  · rw [h]
    simp only [stepState, stepCloses]
    have g3 : StepGood st st3 (reapCl st e) := by
      simpa using stepGood_comp (stepGood_comp hre (raiseUsr1_good _ _)) (dupStep_good hd)
    exact stepGood_comp g3 (teardown_good _)
  · rw [h]
    simp only [stepState, stepCloses]
    simpa using stepGood_comp (stepGood_comp hre (raiseUsr1_good _ _)) (dupStep_good hd)
  · rw [h]
    simp only [stepState, stepCloses]
    simpa using stepGood_comp (stepGood_comp hre (raiseUsr1_good _ _)) (dupStep_good hd)
  · have g3 : StepGood st st3 (reapCl st e) := by
      simpa using stepGood_comp (stepGood_comp hre (raiseUsr1_good _ _)) (dupStep_good hd)
    obtain ⟨cl2, hcl, hg⟩ := stdoutDispatch_good (closeStdin st3).1
      (reapCl st e ++ (closeStdin st3).2) e (stdoutWatched st3 e) (stderrWatched st3 e) so sb
    rw [h, hcl]
    have := stepGood_comp (stepGood_comp g3 (closeStdin_good st3)) hg
    simpa [List.append_assoc] using this
  · have g3 : StepGood st st3 (reapCl st e) := by
      simpa using stepGood_comp (stepGood_comp hre (raiseUsr1_good _ _)) (dupStep_good hd)
    rw [h]
    simp only [stepState, stepCloses]
    have g4 : StepGood st { st3 with remoteStatus := s } (reapCl st e) := by
      simpa using stepGood_comp g3 (stepGood_state rfl rfl rfl)
    have g5 := stepGood_comp (stepGood_comp g4 (closeStdout_good _)) (closeStderr_good _)
    simpa [List.append_assoc] using g5
  · have g3 : StepGood st st3 (reapCl st e) := by
      simpa using stepGood_comp (stepGood_comp hre (raiseUsr1_good _ _)) (dupStep_good hd)
    have g4 : StepGood st { st3 with remoteStatus := s } (reapCl st e) := by
      simpa using stepGood_comp g3 (stepGood_state rfl rfl rfl)
    have g5 := stepGood_comp (stepGood_comp g4 (closeStdout_good _)) (closeStderr_good _)
    obtain ⟨cl2, hcl, hg⟩ := stdoutDispatch_good
      (closeStderr (closeStdout { st3 with remoteStatus := s }).1).1
      (reapCl st e ++ (closeStdout { st3 with remoteStatus := s }).2 ++
        (closeStderr (closeStdout { st3 with remoteStatus := s }).1).2) e
      (stdoutWatched st3 e) (stderrWatched st3 e) so sb
    rw [h, hcl]
    have := stepGood_comp g5 hg
    simpa [List.append_assoc] using this
  · have g3 : StepGood st st3 (reapCl st e) := by
      simpa using stepGood_comp (stepGood_comp hre (raiseUsr1_good _ _)) (dupStep_good hd)
    have g4 : StepGood st { st3 with bufLen := nb } (reapCl st e) := by
      simpa using stepGood_comp g3 (stepGood_state rfl rfl rfl)
    obtain ⟨cl2, hcl, hg⟩ := stdoutDispatch_good { st3 with bufLen := nb }
      (reapCl st e) e (stdoutWatched st3 e) (stderrWatched st3 e) so sb
    rw [h, hcl]
    exact stepGood_comp g4 hg

theorem stepIter_preserve (st : IoState) (e : IterEnv) :
    (stepState (stepIter st e)).childPid = st.childPid ∧
    (stepState (stepIter st e)).stdoutMsgType = st.stdoutMsgType := by
  have hr := reapSt_preserve st e
  have hp := postSig_preserve st e
  rcases stepIter_cases st e with
    ⟨_, _, _, h⟩ | ⟨_, _, _, h⟩ | ⟨_, _, h⟩ | ⟨_, _, h⟩ | ⟨_, _, _, h⟩ |
    ⟨st3, _, _, hd, _, h⟩ | ⟨st3, _, _, hd, _, h⟩ |
    ⟨st3, v, so, sb, _, _, hd, _, _, h⟩ |
    ⟨st3, v, so, sb, _, _, hd, _, _, _, h⟩ |
    ⟨st3, v, so, sb, _, _, hd, _, _, _, h⟩ |
    ⟨st3, v, so, sb, s, _, _, hd, _, _, _, _, h⟩ |
    ⟨st3, v, so, sb, s, _, _, hd, _, _, _, _, h⟩ |
    ⟨st3, v, so, sb, nb, _, _, hd, _, _, _, h⟩ <;> rw [h] <;>
    simp only [stepState]
  · exact ⟨hr.1, hr.2.1⟩
  · have ht := teardown_preserve (reapSt st e)
    exact ⟨ht.1.trans hr.1, ht.2.2.2.1.trans hr.2.1⟩
  · have ht := teardown_preserve (reapSt st e)
    exact ⟨ht.1.trans hr.1, ht.2.2.2.1.trans hr.2.1⟩
  · have ht := teardown_preserve (reapSt st e)
    exact ⟨ht.1.trans hr.1, ht.2.2.2.1.trans hr.2.1⟩
  · exact hp
  · have hdp := dup_preserve hd
    exact ⟨hdp.1.trans hp.1, hdp.2.trans hp.2⟩
  · have hdp := dup_preserve hd
    have ht := teardown_preserve st3
    exact ⟨ht.1.trans (hdp.1.trans hp.1), ht.2.2.2.1.trans (hdp.2.trans hp.2)⟩
  · have hdp := dup_preserve hd
    exact ⟨hdp.1.trans hp.1, hdp.2.trans hp.2⟩
  · have hdp := dup_preserve hd
    exact ⟨hdp.1.trans hp.1, hdp.2.trans hp.2⟩
  · have hdp := dup_preserve hd
    have hds := stdoutDispatch_preserve (closeStdin st3).1
      (reapCl st e ++ (closeStdin st3).2) e (stdoutWatched st3 e) (stderrWatched st3 e) so sb
    rw [closeStdin_fst] at hds
    refine ⟨?_, ?_⟩
    · simpa [hdp.1.trans hp.1] using hds.1
    · simpa [hdp.2.trans hp.2] using hds.2.2.2.1
  · have hdp := dup_preserve hd
    constructor <;> simp [hdp.1.trans hp.1, hdp.2.trans hp.2]
  · have hdp := dup_preserve hd
    have hds := stdoutDispatch_preserve
      (closeStderr (closeStdout { st3 with remoteStatus := s }).1).1
      (reapCl st e ++ (closeStdout { st3 with remoteStatus := s }).2 ++
        (closeStderr (closeStdout { st3 with remoteStatus := s }).1).2) e
      (stdoutWatched st3 e) (stderrWatched st3 e) so sb
    rw [closeStderr_fst, closeStdout_fst] at hds
    refine ⟨?_, ?_⟩
    · simpa [hdp.1.trans hp.1] using hds.1
    · simpa [hdp.2.trans hp.2] using hds.2.2.2.1
  · have hdp := dup_preserve hd
    have hds := stdoutDispatch_preserve { st3 with bufLen := nb }
      (reapCl st e) e (stdoutWatched st3 e) (stderrWatched st3 e) so sb
    refine ⟨?_, ?_⟩
    · simpa [hdp.1.trans hp.1] using hds.1
    · simpa [hdp.2.trans hp.2] using hds.2.2.2.1

theorem stepIter_cont_sends {st : IoState} {e : IterEnv} {s : List VSend}
    {c : List CloseEv} {st2 : IoState} (hm : msgTypeOK st)
    (h : stepIter st e = StepOut.cont s c st2) :
    s.countP isExitHdr = 0 ∧ msgTypeOK st2 := by
  have hmm : msgTypeOK st2 := by
    have hpre := stepIter_preserve st e
    rw [h] at hpre
    simp only [stepState] at hpre
    unfold msgTypeOK at *
    rw [hpre.2]
    exact hm
  refine ⟨?_, hmm⟩
  have hty : st.stdoutMsgType ≠ MSG_DATA_EXIT_CODE := msgTypeOK_not_exit hm
  have hst3ty : ∀ st3 : IoState, dupStep (postSig st e) = some st3 →
      st3.stdoutMsgType = st.stdoutMsgType := by
    intro st3 hd
    exact (dup_preserve hd).2.trans (postSig_preserve st e).2
  rcases stepIter_cases st e with
    ⟨_, _, _, h2⟩ | ⟨_, _, _, h2⟩ | ⟨_, _, h2⟩ | ⟨_, _, h2⟩ | ⟨_, _, _, h2⟩ |
    ⟨st3, _, _, hd, _, h2⟩ | ⟨st3, _, _, hd, _, h2⟩ |
    ⟨st3, v, so, sb, _, _, hd, _, _, h2⟩ |
    ⟨st3, v, so, sb, _, _, hd, _, _, _, h2⟩ |
    ⟨st3, v, so, sb, _, _, hd, _, _, _, h2⟩ |
    ⟨st3, v, so, sb, s', _, _, hd, _, _, _, _, h2⟩ |
    ⟨st3, v, so, sb, s', _, _, hd, _, _, _, _, h2⟩ |
    ⟨st3, v, so, sb, nb, _, _, hd, _, _, _, h2⟩ <;> rw [h2] at h <;>
    first
    | cases h
    | skip
  · -- eintr cont with empty send list
    simp
  · -- reof dispatch
    have hz := @dispatchSends_countP0 (closeStdin st3).1
      (reapCl st e ++ (closeStdin st3).2) e
      (stdoutWatched st3 e) (stderrWatched st3 e) so sb
      (by rw [closeStdin_fst]; simpa using (hst3ty st3 hd) ▸ hty)
    rw [h] at hz
    simpa [stepSends] using hz
  · -- rexited dispatch
    have hz := @dispatchSends_countP0
      (closeStderr (closeStdout { st3 with remoteStatus := s' }).1).1
      (reapCl st e ++ (closeStdout { st3 with remoteStatus := s' }).2 ++
        (closeStderr (closeStdout { st3 with remoteStatus := s' }).1).2) e
      (stdoutWatched st3 e) (stderrWatched st3 e) so sb
      (by rw [closeStderr_fst, closeStdout_fst]; simpa using (hst3ty st3 hd) ▸ hty)
    rw [h] at hz
    simpa [stepSends] using hz
  · -- ok dispatch
    have hz := @dispatchSends_countP0 { st3 with bufLen := nb }
      (reapCl st e) e
      (stdoutWatched st3 e) (stderrWatched st3 e) so sb
      (by simpa using (hst3ty st3 hd) ▸ hty)
    rw [h] at hz
    simpa [stepSends] using hz

theorem stepIter_halt_sends {st : IoState} {e : IterEnv} {s : List VSend}
    {c : List CloseEv} {k : ExitKind} {r : Int} {st2 : IoState} (hm : msgTypeOK st)
    (h : stepIter st e = StepOut.halt s c k r st2) :
    exitLast s = true := by
  have hty : st.stdoutMsgType ≠ MSG_DATA_EXIT_CODE := msgTypeOK_not_exit hm
  have hst3ty : ∀ st3 : IoState, dupStep (postSig st e) = some st3 →
      st3.stdoutMsgType = st.stdoutMsgType := by
    intro st3 hd
    exact (dup_preserve hd).2.trans (postSig_preserve st e).2
  rcases stepIter_cases st e with
    ⟨_, _, _, h2⟩ | ⟨_, _, _, h2⟩ | ⟨_, _, h2⟩ | ⟨_, _, h2⟩ | ⟨_, _, _, h2⟩ |
    ⟨st3, _, _, hd, _, h2⟩ | ⟨st3, _, _, hd, _, h2⟩ |
    ⟨st3, v, so, sb, _, _, hd, _, _, h2⟩ |
    ⟨st3, v, so, sb, _, _, hd, _, _, _, h2⟩ |
    ⟨st3, v, so, sb, _, _, hd, _, _, _, h2⟩ |
    ⟨st3, v, so, sb, s', _, _, hd, _, _, _, _, h2⟩ |
    ⟨st3, v, so, sb, s', _, _, hd, _, _, _, _, h2⟩ |
    ⟨st3, v, so, sb, nb, _, _, hd, _, _, _, h2⟩ <;> rw [h2] at h
  · cases h; exact send_exit_code_exitLast _ _
  · cases h; exact send_exit_code_exitLast _ _
  · cases h; rfl
  · cases h; rfl
  · cases h; rfl
  · cases h
  · cases h; rfl
  · cases h; rfl
  · cases h; rfl
  · have hz := @dispatchSends_countP0 (closeStdin st3).1
      (reapCl st e ++ (closeStdin st3).2) e
      (stdoutWatched st3 e) (stderrWatched st3 e) so sb
      (by rw [closeStdin_fst]; simpa using (hst3ty st3 hd) ▸ hty)
    rw [h] at hz
    simp only [stepSends] at hz
    exact exitLast_of_countP0 _ hz
  · cases h; rfl
  · have hz := @dispatchSends_countP0
      (closeStderr (closeStdout { st3 with remoteStatus := s' }).1).1
      (reapCl st e ++ (closeStdout { st3 with remoteStatus := s' }).2 ++
        (closeStderr (closeStdout { st3 with remoteStatus := s' }).1).2) e
      (stdoutWatched st3 e) (stderrWatched st3 e) so sb
      (by rw [closeStderr_fst, closeStdout_fst]; simpa using (hst3ty st3 hd) ▸ hty)
    rw [h] at hz
    simp only [stepSends] at hz
    exact exitLast_of_countP0 _ hz
  · have hz := @dispatchSends_countP0 { st3 with bufLen := nb }
      (reapCl st e) e
      (stdoutWatched st3 e) (stderrWatched st3 e) so sb
      (by simpa using (hst3ty st3 hd) ▸ hty)
    rw [h] at hz
    simp only [stepSends] at hz
    exact exitLast_of_countP0 _ hz

theorem send_exit_code_ok (r : SendRes) (v : Int)
    (h : (send_exit_code r v).2 = false) :
    (send_exit_code r v).1 = [VSend.hdr MSG_DATA_EXIT_CODE 4, VSend.int32 v] := by
  unfold send_exit_code at *
  split_ifs at h ⊢ <;> simp_all

theorem stepIter_allDone_sends {st : IoState} {e : IterEnv} {s : List VSend}
    {c : List CloseEv} {r : Int} {st2 : IoState}
    (h : stepIter st e = StepOut.halt s c ExitKind.allDone r st2) :
    (¬(-1 < st2.childStatus) ∧ s = []) ∨
    (s = [VSend.hdr MSG_DATA_EXIT_CODE 4, VSend.int32 st2.childStatus]) := by
  rcases stepIter_cases st e with
    ⟨_, _, _, h2⟩ | ⟨_, hcs, hsf, h2⟩ | ⟨_, hcs, h2⟩ | ⟨_, _, h2⟩ | ⟨_, _, _, h2⟩ |
    ⟨st3, _, _, hd, _, h2⟩ | ⟨st3, _, _, hd, _, h2⟩ |
    ⟨st3, v, so, sb, _, _, hd, _, _, h2⟩ |
    ⟨st3, v, so, sb, _, _, hd, _, _, _, h2⟩ |
    ⟨st3, v, so, sb, _, _, hd, _, _, _, h2⟩ |
    ⟨st3, v, so, sb, s', _, _, hd, _, _, _, _, h2⟩ |
    ⟨st3, v, so, sb, s', _, _, hd, _, _, _, _, h2⟩ |
    ⟨st3, v, so, sb, nb, _, _, hd, _, _, _, h2⟩
  · rw [h2] at h; cases h
  · rw [h2] at h
    cases h
    right
    rw [(teardown_preserve (reapSt st e)).2.1]
    exact send_exit_code_ok _ _ hsf
  · rw [h2] at h
    cases h
    left
    rw [(teardown_preserve (reapSt st e)).2.1]
    exact ⟨hcs, rfl⟩
  · rw [h2] at h; cases h
  · rw [h2] at h; cases h
  · rw [h2] at h; cases h
  · rw [h2] at h; cases h
  · rw [h2] at h; cases h
  · rw [h2] at h; cases h
  · rcases stdoutDispatch_kind (closeStdin st3).1 (reapCl st e ++ (closeStdin st3).2) e
      (stdoutWatched st3 e) (stderrWatched st3 e) so sb with hk | hk <;>
      rw [← h2, h] at hk <;> simp [stepKind] at hk
  · rw [h2] at h; cases h
  · rcases stdoutDispatch_kind (closeStderr (closeStdout { st3 with remoteStatus := s' }).1).1
      (reapCl st e ++ (closeStdout { st3 with remoteStatus := s' }).2 ++
        (closeStderr (closeStdout { st3 with remoteStatus := s' }).1).2) e
      (stdoutWatched st3 e) (stderrWatched st3 e) so sb with hk | hk <;>
      rw [← h2, h] at hk <;> simp [stepKind] at hk
  · rcases stdoutDispatch_kind { st3 with bufLen := nb } (reapCl st e) e
      (stdoutWatched st3 e) (stderrWatched st3 e) so sb with hk | hk <;>
      rw [← h2, h] at hk <;> simp [stepKind] at hk

theorem stepIter_halt_state {st : IoState} {e : IterEnv} {s : List VSend}
    {c : List CloseEv} {k : ExitKind} {r : Int} {st2 : IoState}
    (h : stepIter st e = StepOut.halt s c k r st2) :
    (k = ExitKind.allDone ∨ k = ExitKind.vchanGone ∨ k = ExitKind.selectFail →
      st2.stdin.isLive = false ∧ st2.stdout.isLive = false ∧
      st2.stderr.isLive = false ∧ r = loopReturn st2) ∧
    (k = ExitKind.remoteEarly →
      st2.stdout.isLive = false ∧ st2.stderr.isLive = false ∧
      r = st2.remoteStatus ∧ st2.childPid = 0 ∧ st.childPid = 0) := by
  rcases stepIter_cases st e with
    ⟨_, _, _, h2⟩ | ⟨_, hcs, hsf, h2⟩ | ⟨_, hcs, h2⟩ | ⟨_, _, h2⟩ | ⟨_, _, _, h2⟩ |
    ⟨st3, _, _, hd, _, h2⟩ | ⟨st3, _, _, hd, _, h2⟩ |
    ⟨st3, v, so, sb, _, _, hd, _, _, h2⟩ |
    ⟨st3, v, so, sb, _, _, hd, _, _, _, h2⟩ |
    ⟨st3, v, so, sb, _, _, hd, _, _, _, h2⟩ |
    ⟨st3, v, so, sb, s', _, _, hd, _, _, _, hp, h2⟩ |
    ⟨st3, v, so, sb, s', _, _, hd, _, _, _, hp, h2⟩ |
    ⟨st3, v, so, sb, nb, _, _, hd, _, _, _, h2⟩ <;> rw [h2] at h
  · cases h; constructor <;> intro hk <;> simp at hk
  · cases h
    have ht := teardown_preserve (reapSt st e)
    constructor
    · intro _
      exact ⟨ht.2.2.2.2.1, ht.2.2.2.2.2.1, ht.2.2.2.2.2.2, rfl⟩
    · intro hk; simp at hk
  · cases h
    have ht := teardown_preserve (reapSt st e)
    constructor
    · intro _
      exact ⟨ht.2.2.2.2.1, ht.2.2.2.2.2.1, ht.2.2.2.2.2.2, rfl⟩
    · intro hk; simp at hk
  · cases h
    have ht := teardown_preserve (reapSt st e)
    constructor
    · intro _
      exact ⟨ht.2.2.2.2.1, ht.2.2.2.2.2.1, ht.2.2.2.2.2.2, rfl⟩
    · intro hk; simp at hk
  · cases h; constructor <;> intro hk <;> simp at hk
  · cases h
  · cases h
    have ht := teardown_preserve st3
    constructor
    · intro _
      exact ⟨ht.2.2.2.2.1, ht.2.2.2.2.2.1, ht.2.2.2.2.2.2, rfl⟩
    · intro hk; simp at hk
  · cases h; constructor <;> intro hk <;> simp at hk
  · cases h; constructor <;> intro hk <;> simp at hk
  · rcases stdoutDispatch_kind (closeStdin st3).1 (reapCl st e ++ (closeStdin st3).2) e
      (stdoutWatched st3 e) (stderrWatched st3 e) so sb with hk | hk <;>
      rw [h] at hk <;> simp [stepKind] at hk
    subst hk
    constructor <;> intro hk2 <;> simp at hk2
  · cases h
    have hpid : st.childPid = 0 := by
      have h3 := (dup_preserve hd).1.trans (postSig_preserve st e).1
      simp at hp
      rw [← h3]
      exact hp
    constructor
    · intro hk; simp at hk
    · intro _
      refine ⟨by simp [FdSlot.isLive], by simp [FdSlot.isLive], rfl, by simpa using hp, hpid⟩
  · rcases stdoutDispatch_kind (closeStderr (closeStdout { st3 with remoteStatus := s' }).1).1
      (reapCl st e ++ (closeStdout { st3 with remoteStatus := s' }).2 ++
        (closeStderr (closeStdout { st3 with remoteStatus := s' }).1).2) e
      (stdoutWatched st3 e) (stderrWatched st3 e) so sb with hk | hk <;>
      rw [h] at hk <;> simp [stepKind] at hk
    subst hk
    constructor <;> intro hk2 <;> simp at hk2
  · rcases stdoutDispatch_kind { st3 with bufLen := nb } (reapCl st e) e
      (stdoutWatched st3 e) (stderrWatched st3 e) so sb with hk | hk <;>
      rw [h] at hk <;> simp [stepKind] at hk
    subst hk
    constructor <;> intro hk2 <;> simp at hk2

theorem stepIter_kind_conds (st : IoState) (e : IterEnv) :
    (stepKind (stepIter st e) = some ExitKind.allDone →
      allDoneCond (reapSt st e) = true) ∧
    (stepKind (stepIter st e) = some ExitKind.vchanGone →
      allDoneCond (reapSt st e) = false ∧ vchanGoneCond (reapSt st e) e = true) ∧
    (allDoneCond (reapSt st e) = true →
      stepKind (stepIter st e) = some ExitKind.allDone ∨
      stepKind (stepIter st e) = some ExitKind.fatal) ∧
    (allDoneCond (reapSt st e) = false → vchanGoneCond (reapSt st e) e = true →
      stepKind (stepIter st e) = some ExitKind.vchanGone) ∧
    (stepKind (stepIter st e) = some ExitKind.remoteEarly →
      st.childPid = 0 ∧ ∃ s, e.remote = RemoteOutcome.rexited s) ∧
    (stepKind (stepIter st e) = some ExitKind.selectFail →
      e.sel = SelectOutcome.sfail) := by
  rcases stepIter_cases st e with
    ⟨hA, _, _, h2⟩ | ⟨hA, _, _, h2⟩ | ⟨hA, _, h2⟩ | ⟨hA, hB, h2⟩ | ⟨hA, hB, _, h2⟩ |
    ⟨st3, hA, hB, hd, hS, h2⟩ | ⟨st3, hA, hB, hd, hS, h2⟩ |
    ⟨st3, v, so, sb, hA, hB, hd, hS, _, h2⟩ |
    ⟨st3, v, so, sb, hA, hB, hd, hS, _, _, h2⟩ |
    ⟨st3, v, so, sb, hA, hB, hd, hS, _, _, h2⟩ |
    ⟨st3, v, so, sb, s', hA, hB, hd, hS, _, hr, hp, h2⟩ |
    ⟨st3, v, so, sb, s', hA, hB, hd, hS, _, hr, hp, h2⟩ |
    ⟨st3, v, so, sb, nb, hA, hB, hd, hS, _, hr, h2⟩
  · rw [h2]; simp [stepKind, hA]
  · rw [h2]; simp [stepKind, hA]
  · rw [h2]; simp [stepKind, hA]
  · rw [h2]; simp [stepKind, hA, hB]
  · rw [h2]; simp [stepKind, hA, hB]
  · rw [h2]; simp [stepKind, hA, hB]
  · rw [h2]; simp [stepKind, hA, hB, hS]
  · rw [h2]; simp [stepKind, hA, hB]
  · rw [h2]; simp [stepKind, hA, hB]
  · rcases stdoutDispatch_kind (closeStdin st3).1 (reapCl st e ++ (closeStdin st3).2) e
      (stdoutWatched st3 e) (stderrWatched st3 e) so sb with hk | hk <;>
      rw [← h2] at hk <;> simp [hk, hA, hB]
  · have hpid : st.childPid = 0 := by
      have h3 := (dup_preserve hd).1.trans (postSig_preserve st e).1
      simp at hp
      rw [← h3]
      exact hp
    rw [h2]
    simp [stepKind, hA, hB, hpid]
    exact ⟨s', hr⟩
  · rcases stdoutDispatch_kind (closeStderr (closeStdout { st3 with remoteStatus := s' }).1).1
      (reapCl st e ++ (closeStdout { st3 with remoteStatus := s' }).2 ++
        (closeStderr (closeStdout { st3 with remoteStatus := s' }).1).2) e
      (stdoutWatched st3 e) (stderrWatched st3 e) so sb with hk | hk <;>
      rw [← h2] at hk <;> simp [hk, hA, hB]
  · rcases stdoutDispatch_kind { st3 with bufLen := nb } (reapCl st e) e
      (stdoutWatched st3 e) (stderrWatched st3 e) so sb with hk | hk <;>
      rw [← h2] at hk <;> simp [hk, hA, hB]

theorem send_exit_code_not_childData (r : SendRes) (v : Int) :
    ∀ x ∈ (send_exit_code r v).1, isChildData x = false := by
  unfold send_exit_code
  split_ifs <;> intro x hx <;> simp at hx
  · rw [hx]; decide
  · rcases hx with hx | hx <;> rw [hx]
    · decide
    · rfl

theorem dispatch_no_sends_without_space {st : IoState} {cl : List CloseEv}
    {e : IterEnv} {st3 : IoState} {so sb : Bool}
    (hsp : ¬(msgHeaderSize < e.bufferSpace)) :
    stepSends (stdoutDispatch st cl e (stdoutWatched st3 e) (stderrWatched st3 e) so sb)
      = [] := by
  obtain ⟨s1, s2, h1, _, _, h4, h5⟩ :=
    stdoutDispatch_sends st cl e (stdoutWatched st3 e) (stderrWatched st3 e) so sb
  have hwo : stdoutWatched st3 e = false := by
    simp [stdoutWatched, hsp]
  have hwe : stderrWatched st3 e = false := by
    simp [stderrWatched, hsp]
  rcases h4 with h4 | h4
  · rcases h5 with h5 | h5
    · rw [h1, h4, h5]; rfl
    · rw [hwe] at h5; cases h5
  · rw [hwo] at h4; cases h4

theorem stepIter_childData_space (st : IoState) (e : IterEnv) :
    ∀ x ∈ stepSends (stepIter st e), isChildData x = true →
      msgHeaderSize < e.bufferSpace := by
  intro x hx hcd
  by_cases hsp : msgHeaderSize < e.bufferSpace
  · exact hsp
  · exfalso
    rcases stepIter_cases st e with
      ⟨_, _, _, h2⟩ | ⟨_, _, _, h2⟩ | ⟨_, _, h2⟩ | ⟨_, _, h2⟩ | ⟨_, _, _, h2⟩ |
      ⟨st3, _, _, hd, _, h2⟩ | ⟨st3, _, _, hd, _, h2⟩ |
      ⟨st3, v, so, sb, _, _, hd, _, _, h2⟩ |
      ⟨st3, v, so, sb, _, _, hd, _, _, _, h2⟩ |
      ⟨st3, v, so, sb, _, _, hd, _, _, _, h2⟩ |
      ⟨st3, v, so, sb, s', _, _, hd, _, _, _, _, h2⟩ |
      ⟨st3, v, so, sb, s', _, _, hd, _, _, _, _, h2⟩ |
      ⟨st3, v, so, sb, nb, _, _, hd, _, _, _, h2⟩ <;> rw [h2] at hx
    · simp only [stepSends] at hx
      have := send_exit_code_not_childData e.exitSend (reapSt st e).childStatus x hx
      rw [hcd] at this
      cases this
    · simp only [stepSends] at hx
      have := send_exit_code_not_childData e.exitSend (reapSt st e).childStatus x hx
      rw [hcd] at this
      cases this
    · simp [stepSends] at hx
    · simp [stepSends] at hx
    · simp [stepSends] at hx
    · simp [stepSends] at hx
    · simp [stepSends] at hx
    · simp [stepSends] at hx
    · simp [stepSends] at hx
    · rw [dispatch_no_sends_without_space hsp] at hx
      simp at hx
    · simp [stepSends] at hx
    · rw [dispatch_no_sends_without_space hsp] at hx
      simp at hx
    · rw [dispatch_no_sends_without_space hsp] at hx
      simp at hx

theorem runLoop_good (st : IoState) (envs : List IterEnv) :
    StepGood st (runState (runLoop st envs)) (runCloses (runLoop st envs)) := by
  induction envs generalizing st with
  | nil => exact stepGood_nil fun _ => rfl
  | cons e es ih =>
    have g1 := stepIter_good st e
    cases h : stepIter st e with
    | halt s c k r st2 =>
      rw [h] at g1
      simp only [stepState, stepCloses] at g1
      simpa [runLoop, h, runState, runCloses] using g1
    | cont s c st2 =>
      rw [h] at g1
      simp only [stepState, stepCloses] at g1
      have g2 := ih st2
      cases h2 : runLoop st2 es with
      | finished s2 c2 k r st3 =>
        rw [h2] at g2
        simp only [runState, runCloses] at g2
        simp only [runLoop, h, h2, runState, runCloses]
        exact stepGood_comp g1 g2
      | fuelOut s2 c2 st3 =>
        rw [h2] at g2
        simp only [runState, runCloses] at g2
        simp only [runLoop, h, h2, runState, runCloses]
        exact stepGood_comp g1 g2

theorem runLoop_preserve (st : IoState) (envs : List IterEnv) :
    (runState (runLoop st envs)).childPid = st.childPid ∧
    (runState (runLoop st envs)).stdoutMsgType = st.stdoutMsgType := by
  induction envs generalizing st with
  | nil => exact ⟨rfl, rfl⟩
  | cons e es ih =>
    have g1 := stepIter_preserve st e
    cases h : stepIter st e with
    | halt s c k r st2 =>
      rw [h] at g1
      simp only [stepState] at g1
      simpa [runLoop, h, runState] using g1
    | cont s c st2 =>
      rw [h] at g1
      simp only [stepState] at g1
      have g2 := ih st2
      cases h2 : runLoop st2 es with
      | finished s2 c2 k r st3 =>
        rw [h2] at g2
        simp only [runState] at g2
        simp only [runLoop, h, h2, runState]
        exact ⟨g2.1.trans g1.1, g2.2.trans g1.2⟩
      | fuelOut s2 c2 st3 =>
        rw [h2] at g2
        simp only [runState] at g2
        simp only [runLoop, h, h2, runState]
        exact ⟨g2.1.trans g1.1, g2.2.trans g1.2⟩

theorem runLoop_exitLast (st : IoState) (envs : List IterEnv) (hm : msgTypeOK st) :
    exitLast (runSends (runLoop st envs)) = true := by
  induction envs generalizing st with
  | nil => rfl
  | cons e es ih =>
    cases h : stepIter st e with
    | halt s c k r st2 =>
      have := stepIter_halt_sends hm h
      simpa [runLoop, h, runSends] using this
    | cont s c st2 =>
      have hc := stepIter_cont_sends hm h
      have g2 := ih st2 hc.2
      cases h2 : runLoop st2 es with
      | finished s2 c2 k r st3 =>
        rw [h2] at g2
        simp only [runSends] at g2
        simp only [runLoop, h, h2, runSends]
        exact exitLast_append s s2 hc.1 g2
      | fuelOut s2 c2 st3 =>
        rw [h2] at g2
        simp only [runSends] at g2
        simp only [runLoop, h, h2, runSends]
        exact exitLast_append s s2 hc.1 g2

theorem runLoop_allDone (envs : List IterEnv) :
    ∀ (st : IoState) (s : List VSend) (c : List CloseEv) (r : Int) (fin : IoState),
      msgTypeOK st →
      runLoop st envs = RunOut.finished s c ExitKind.allDone r fin →
      -1 < fin.childStatus →
      ∃ pre, s = pre ++ [VSend.hdr MSG_DATA_EXIT_CODE 4, VSend.int32 fin.childStatus] ∧
        pre.countP isExitHdr = 0 := by
  induction envs with
  | nil =>
    intro st s c r fin hm h hcs
    cases h
  | cons e es ih =>
    intro st s c r fin hm h hcs
    cases h1 : stepIter st e with
    | halt s1 c1 k1 r1 st2 =>
      rw [runLoop, h1] at h
      cases h
      rcases stepIter_allDone_sends h1 with ⟨hne, _⟩ | hs
      · exact absurd hcs hne
      · exact ⟨[], by simpa using hs, rfl⟩
    | cont s1 c1 st2 =>
      have hc := stepIter_cont_sends hm h1
      rw [runLoop, h1] at h
      cases h2 : runLoop st2 es with
      | finished s2 c2 k2 r2 st3 =>
        simp only [h2] at h
        cases h
        obtain ⟨pre, hp1, hp2⟩ := ih st2 s2 c2 r fin hc.2 h2 hcs
        refine ⟨s1 ++ pre, ?_, ?_⟩
        · rw [hp1, List.append_assoc]
        · rw [List.countP_append, hc.1, hp2]
      | fuelOut s2 c2 st3 =>
        simp only [h2] at h
        cases h

theorem runLoop_finished_facts (envs : List IterEnv) :
    ∀ (st : IoState) (s : List VSend) (c : List CloseEv) (k : ExitKind) (r : Int)
      (fin : IoState),
      runLoop st envs = RunOut.finished s c k r fin →
      (k = ExitKind.allDone ∨ k = ExitKind.vchanGone ∨ k = ExitKind.selectFail →
        fin.stdin.isLive = false ∧ fin.stdout.isLive = false ∧
        fin.stderr.isLive = false ∧ r = loopReturn fin) ∧
      (k = ExitKind.remoteEarly →
        fin.stdout.isLive = false ∧ fin.stderr.isLive = false ∧
        r = fin.remoteStatus ∧ fin.childPid = 0) := by
  induction envs with
  | nil =>
    intro st s c k r fin h
    cases h
  | cons e es ih =>
    intro st s c k r fin h
    cases h1 : stepIter st e with
    | halt s1 c1 k1 r1 st2 =>
      rw [runLoop, h1] at h
      cases h
      have hf := stepIter_halt_state h1
      exact ⟨hf.1, fun hk => ⟨(hf.2 hk).1, (hf.2 hk).2.1, (hf.2 hk).2.2.1,
        (hf.2 hk).2.2.2.1⟩⟩
    | cont s1 c1 st2 =>
      rw [runLoop, h1] at h
      cases h2 : runLoop st2 es with
      | finished s2 c2 k2 r2 st3 =>
        simp only [h2] at h
        cases h
        exact ih st2 s2 c2 k r fin h2
      | fuelOut s2 c2 st3 =>
        simp only [h2] at h
        cases h

theorem runLoop_kind_vchanGone (st : IoState) (envs : List IterEnv)
    {s : List VSend} {c : List CloseEv} {r : Int} {fin : IoState}
    (h : runLoop st envs = RunOut.finished s c ExitKind.vchanGone r fin) :
    r = loopReturn fin := by
  have := (runLoop_finished_facts envs st s c ExitKind.vchanGone r fin h).1
    (Or.inr (Or.inl rfl))
  exact this.2.2.2

/-- Claim C3 (amended): in every session at most one EXIT_CODE message is
sent and nothing but its own 4-byte status payload follows it on the vchan;
when the loop terminates through the all-done test with a recorded local
exit code, exactly one EXIT_CODE message is sent and it is the final
outbound message; when the loop instead stops because the vchan is already
closed and drained, no EXIT_CODE is sent even though a local exit code may
exist. -/
theorem c3_exit_code_at_most_once_and_last (childPid : Nat) (sp : Bool)
    (b0 msgType : Nat) (envs : List IterEnv)
    (hm : msgType = MSG_DATA_STDOUT ∨ msgType = MSG_DATA_STDIN) :
    exitLast (runSends (process_child_io childPid sp b0 msgType envs)) = true ∧
    (∀ s c r fin, process_child_io childPid sp b0 msgType envs =
        RunOut.finished s c ExitKind.allDone r fin → -1 < fin.childStatus →
      ∃ pre, s = pre ++ [VSend.hdr MSG_DATA_EXIT_CODE 4, VSend.int32 fin.childStatus] ∧
        pre.countP isExitHdr = 0) := by
  have hm0 : msgTypeOK (process_child_io_init childPid sp b0 msgType) := by
    unfold msgTypeOK process_child_io_init
    simpa using hm
  constructor
  · exact runLoop_exitLast _ envs hm0
  · intro s c r fin h hcs
    exact runLoop_allDone envs _ s c r fin hm0 h hcs

/-- Witness for c3_exit_code_at_most_once_and_last on a concrete run. -/
theorem c3_exit_code_at_most_once_and_last_witness :
    exitLast (runSends (process_child_io 0 true 0 MSG_DATA_STDIN
      [envInboundExitSeven])) = true :=
  (c3_exit_code_at_most_once_and_last 0 true 0 MSG_DATA_STDIN
    [envInboundExitSeven] (Or.inr rfl)).1

/-- Claim C4 (amended): across every session no (slot, generation) pair of
the three fd slots is closed twice; whenever the loop ends through the
all-done, vchan-closed, or pselect-failure paths, all three fds have
reached the closed state; on the service-connect early return triggered by
an inbound EXIT_CODE, stdout and stderr are closed and the remote exit code
is returned, but the stdin fd is left open (see the counterexample). -/
theorem c4_fd_close_discipline (childPid : Nat) (sp : Bool) (b0 msgType : Nat)
    (envs : List IterEnv) :
    (runCloses (process_child_io childPid sp b0 msgType envs)).Nodup ∧
    (∀ s c k r fin, process_child_io childPid sp b0 msgType envs =
        RunOut.finished s c k r fin →
      (k = ExitKind.allDone ∨ k = ExitKind.vchanGone ∨ k = ExitKind.selectFail →
        fin.stdin.isLive = false ∧ fin.stdout.isLive = false ∧
        fin.stderr.isLive = false) ∧
      (k = ExitKind.remoteEarly →
        fin.stdout.isLive = false ∧ fin.stderr.isLive = false ∧
        r = fin.remoteStatus ∧ fin.childPid = 0)) := by
  constructor
  · exact (runLoop_good _ envs).1
  · intro s c k r fin h
    have hf := runLoop_finished_facts envs _ s c k r fin h
    exact ⟨fun hk => ⟨(hf.1 hk).1, (hf.1 hk).2.1, (hf.1 hk).2.2.1⟩, hf.2⟩

/-- Witness for c4_fd_close_discipline on the concrete service-connect
run. -/
theorem c4_fd_close_discipline_witness :
    stServiceAfterExit.stdout.isLive = false ∧
    stServiceAfterExit.stderr.isLive = false ∧
    (7 : Int) = stServiceAfterExit.remoteStatus ∧
    stServiceAfterExit.childPid = 0 :=
  ((c4_fd_close_discipline 0 true 0 MSG_DATA_STDIN [envInboundExitSeven]).2
    [] [(SlotId.stdoutS, 0), (SlotId.stderrS, 0)] ExitKind.remoteEarly 7
    stServiceAfterExit (by decide)).2 rfl

/-- Claim C5 (amended): the loop leaves an iteration with the all-done kind
only when condition (1) holds after the reap step, and conversely whenever
condition (1) holds the iteration terminates (all-done, or fatally when the
exit-code send fails); it leaves with the vchan-closed kind exactly when
condition (1) fails and condition (2) holds; in addition it can exit
outside both conditions, through the service-connect early return after an
inbound EXIT_CODE, on pselect failure, or on a fatal vchan error. -/
theorem c5_loop_exit_characterization (st : IoState) (e : IterEnv) :
    (stepKind (stepIter st e) = some ExitKind.allDone →
      allDoneCond (reapSt st e) = true) ∧
    (stepKind (stepIter st e) = some ExitKind.vchanGone →
      allDoneCond (reapSt st e) = false ∧ vchanGoneCond (reapSt st e) e = true) ∧
    (allDoneCond (reapSt st e) = true →
      stepKind (stepIter st e) = some ExitKind.allDone ∨
      stepKind (stepIter st e) = some ExitKind.fatal) ∧
    (allDoneCond (reapSt st e) = false → vchanGoneCond (reapSt st e) e = true →
      stepKind (stepIter st e) = some ExitKind.vchanGone) ∧
    (stepKind (stepIter st e) = some ExitKind.remoteEarly →
      st.childPid = 0 ∧ ∃ s, e.remote = RemoteOutcome.rexited s) ∧
    (stepKind (stepIter st e) = some ExitKind.selectFail →
      e.sel = SelectOutcome.sfail) :=
  stepIter_kind_conds st e

/-- Witness for c5_loop_exit_characterization on a concrete iteration. -/
theorem c5_loop_exit_characterization_witness :
    stepKind (stepIter (process_child_io_init 5 true 0 MSG_DATA_STDOUT)
      envVchanClosedIdle) = some ExitKind.vchanGone :=
  (c5_loop_exit_characterization (process_child_io_init 5 true 0 MSG_DATA_STDOUT)
    envVchanClosedIdle).2.2.2.1 (by decide) (by decide)

/-- Claim C8 (amended): on every loop iteration the child stdout and stderr
fds are watched for readability only when the vchan outbound free space
strictly exceeds the message-header size, and consequently every child-data
frame sent during an iteration is sent with ring space for its header; the
terminal EXIT_CODE emission is the one vchan send not gated on ring space
(see the counterexample). -/
theorem c8_read_gating (st : IoState) (e : IterEnv) :
    (stdoutWatched st e = true → msgHeaderSize < e.bufferSpace) ∧
    (stderrWatched st e = true → msgHeaderSize < e.bufferSpace) ∧
    (∀ x ∈ stepSends (stepIter st e), isChildData x = true →
      msgHeaderSize < e.bufferSpace) := by
  refine ⟨?_, ?_, stepIter_childData_space st e⟩
  · intro h
    simp only [stdoutWatched, Bool.and_eq_true, decide_eq_true_eq] at h
    exact h.1
  · intro h
    simp only [stderrWatched, Bool.and_eq_true, decide_eq_true_eq] at h
    exact h.1

/-- Witness for c8_read_gating on a concrete state with an open stdout. -/
theorem c8_read_gating_witness :
    msgHeaderSize < envVchanClosedIdle.bufferSpace :=
  (c8_read_gating (process_child_io_init 5 true 0 MSG_DATA_STDOUT)
    envVchanClosedIdle).1 (by decide)

/-- Claim C10: when the loop ends because the vchan is closed with no
pending data and an empty stdin staging buffer, process_child_io returns
the internal sentinel -1 whenever no exit code had been recorded: the local
child status in exec mode when the child was not yet reaped, and the remote
status in service-connect mode when no EXIT_CODE message had arrived. -/
theorem c10_vchan_closed_sentinel (childPid : Nat) (sp : Bool) (b0 msgType : Nat)
    (envs : List IterEnv) (s : List VSend) (c : List CloseEv) (r : Int)
    (fin : IoState)
    (h : process_child_io childPid sp b0 msgType envs =
      RunOut.finished s c ExitKind.vchanGone r fin) :
    (0 < childPid → fin.childStatus = -1 → r = -1) ∧
    (childPid = 0 → fin.remoteStatus = -1 → r = -1) := by
  unfold process_child_io at h
  have hr : r = loopReturn fin := runLoop_kind_vchanGone _ envs h
  have hpid : fin.childPid = childPid := by
    have hpres := (runLoop_preserve (process_child_io_init childPid sp b0 msgType) envs).1
    rw [h] at hpres
    simpa [runState, process_child_io_init] using hpres
  constructor
  · intro hp hcs
    rw [hr]
    unfold loopReturn
    rw [if_neg (by omega), hcs]
  · intro hp hrs
    rw [hr]
    unfold loopReturn
    rw [if_pos (by omega), hrs]

/-- Witness for c10_vchan_closed_sentinel on the concrete exec run whose
vchan closes before the child is reaped. -/
theorem c10_vchan_closed_sentinel_witness : (-1 : Int) = -1 :=
  (c10_vchan_closed_sentinel 5 true 0 MSG_DATA_STDOUT [envVchanClosedIdle]
    [] [(SlotId.stdoutS, 0), (SlotId.stdinS, 0), (SlotId.stderrS, 0)] (-1)
    stExecIdleFin (by decide)).1 (by decide) (by decide)
